import Mathlib

/-!
# ElectZone: the vote submission protocol

A shallow embedding of the vote submission path of the ElectZone web client
(`src/utils/crypto.js`, `src/services/supabaseAPI.js`, `src/pages/Review.jsx`,
and from `src/App.jsx`, `src/components/ProtectedRoute.jsx` and
`src/pages/ThankYou.jsx` the session state, the route guards and the logout)
and theorems about it.

Conventions of the embedding

* JavaScript strings are Lean strings (sequences of Unicode scalar values).
* A plain JavaScript object is an association list of its own enumerable
  string-keyed properties, in enumeration order.
* An `async` function is a state transformer on a `World`: the state of the
  hosted store, the log of requests sent to it, the browser effects
  (`alert`, `navigate`) and the state of the React component.  A rejected
  promise / thrown value is `Except.error`.
* Platform primitives the program calls (`crypto.subtle.digest`,
  `crypto.randomUUID`, the clock, the hosted store) are parameters; the first
  three are total, a request to the store may resolve with an error or reject.
* Row identifiers (election, candidate, student) are strings; the `has_voted`
  column is a boolean (a `null` there would be as falsy as `false`).
* `console.log` / `console.error` have no effect on any of the above and are
  left out.
-/

namespace ElectZone

/-! ## JavaScript values and `JSON.stringify` -/

/-- The JavaScript values that reach `JSON.stringify` in this program. -/
inductive JSVal where
  | undefined
  | null
  | bool (b : Bool)
  | str (s : String)
  | arr (items : List JSVal)
  | obj (props : List (String × JSVal))

/-- A plain object: own enumerable properties in enumeration order. -/
abbrev JSObject := List (String × JSVal)

/-- The keys `Object.keys(o)`. -/
def objectKeys (o : JSObject) : List String := o.map Prod.fst

/-- ECMAScript `QuoteJSONString`, one code point (well-formed strings only). -/
def quoteChar (c : Char) : List Char :=
  if c = '"' then ['\\', '"']
  else if c = '\\' then ['\\', '\\']
  else if c.toNat = 8 then ['\\', 'b']
  else if c.toNat = 12 then ['\\', 'f']
  else if c.toNat = 10 then ['\\', 'n']
  else if c.toNat = 13 then ['\\', 'r']
  else if c.toNat = 9 then ['\\', 't']
  else if c.toNat < 32 then
    ['\\', 'u', '0', '0', Nat.digitChar (c.toNat / 16), Nat.digitChar (c.toNat % 16)]
  else [c]

/-- ECMAScript `QuoteJSONString`. -/
def quoteJSONString (s : String) : String :=
  "\"" ++ String.mk (s.data.flatMap quoteChar) ++ "\""

/-- The serialization of property `k` among already serialized properties
(`none`: the property is absent or serializes to `undefined`). -/
def lookupSerialized (k : String) : List (String × Option String) → Option String
  | [] => none
  | (k2, v) :: rest => if k2 = k then v else lookupSerialized k rest

/-- The members `"key":value` of an object, for the keys `K` in order; a key
whose value is `undefined` is skipped (ECMAScript `SerializeJSONObject`). -/
def serializeMembers (keys : List String) (ser : List (String × Option String)) :
    List String :=
  keys.filterMap fun k => (lookupSerialized k ser).map fun s => quoteJSONString k ++ ":" ++ s

mutual
/-- ECMAScript `SerializeJSONProperty` with no gap; `plist` is the
`PropertyList` of the state (`some` when the replacer is an array).  The
property list applies to **every** object serialized, nested ones included. -/
def serializeJSONProperty (plist : Option (List String)) : JSVal → Option String
  | .undefined => none
  | .null => some "null"
  | .bool b => some (if b then "true" else "false")
  | .str s => some (quoteJSONString s)
  | .arr items => some ("[" ++ ",".intercalate (serializeItems plist items) ++ "]")
  | .obj props =>
    let ser := serializeProps plist props
    let keys := match plist with
      | some ks => ks
      | none => ser.map Prod.fst
    some ("\x7b" ++ ",".intercalate (serializeMembers keys ser) ++ "\x7d")
/-- ECMAScript `SerializeJSONArray`: an `undefined` element is written `null`. -/
def serializeItems (plist : Option (List String)) : List JSVal → List String
  | [] => []
  | v :: rest => (serializeJSONProperty plist v).getD "null" :: serializeItems plist rest
/-- The serialization of each property value of an object. -/
def serializeProps (plist : Option (List String)) :
    List (String × JSVal) → List (String × Option String)
  | [] => []
  | (k, v) :: rest => (k, serializeJSONProperty plist v) :: serializeProps plist rest
end

/-- The property list built from an array replacer of strings: duplicates
after the first occurrence are dropped. -/
def propertyList : List String → List String
  | [] => []
  | k :: ks => k :: (propertyList ks).filter fun k2 => k2 ≠ k

/-- The string `JSON.stringify(value, replacer)` for an object `value`, where `replacer`
is absent (`none`) or an array of strings. -/
def jsonStringify (value : JSObject) (replacer : Option (List String)) : String :=
  (serializeJSONProperty (replacer.map propertyList) (.obj value)).getD "undefined"

/-! ## `Array.prototype.sort()` on strings -/

/-- UTF-16 code units of a string. -/
def utf16Units (s : String) : List Nat :=
  s.data.flatMap fun c =>
    if c.toNat < 65536 then [c.toNat]
    else [55296 + (c.toNat - 65536) / 1024, 56320 + (c.toNat - 65536) % 1024]

/-- Lexicographic `≤` on code unit sequences. -/
def unitsLe : List Nat → List Nat → Bool
  | [], _ => true
  | _ :: _, [] => false
  | a :: as, b :: bs => a < b || (a == b && unitsLe as bs)

/-- Insert `k` after the elements that are `≤ k` (stable). -/
def insertKey (k : String) : List String → List String
  | [] => [k]
  | x :: xs =>
    if unitsLe (utf16Units x) (utf16Units k) then x :: insertKey k xs else k :: x :: xs

/-- The array after `keys.sort()` with the default comparator (code unit order, stable). -/
def sortKeys (keys : List String) : List String :=
  keys.foldl (fun acc k => insertKey k acc) []

/-! ## `src/utils/crypto.js` -/

/-- The UTF-8 bytes `TextEncoder.encode` writes for one code point. -/
def utf8EncodeChar (c : Char) : List Nat :=
  let n := c.toNat
  if n < 128 then [n]
  else if n < 2048 then [192 + n / 64, 128 + n % 64]
  else if n < 65536 then [224 + n / 4096, 128 + n / 64 % 64, 128 + n % 64]
  else [240 + n / 262144, 128 + n / 4096 % 64, 128 + n / 64 % 64, 128 + n % 64]

/-- The bytes `new TextEncoder().encode(text)`. -/
def textEncode (text : String) : List Nat := text.data.flatMap utf8EncodeChar

/-- The string `s.padStart(2, '0')`. -/
def padStart2 (s : List Char) : List Char :=
  List.replicate (2 - s.length) '0' ++ s

/-- The string `b.toString(16).padStart(2, '0')`. -/
def byteHex (b : Nat) : List Char := padStart2 (Nat.toDigits 16 b)

/-- Function `hashString(text)`; `sha256` is `crypto.subtle.digest('SHA-256', ·)` on
byte sequences. -/
def hashString (sha256 : List Nat → List Nat) (text : String) : String :=
  let data := textEncode text
  let hashArray := sha256 data
  String.mk (hashArray.flatMap byteHex)

/-- The string `createPayloadHash` passes to `hashString`:
`JSON.stringify(payload, Object.keys(payload).sort())`. -/
def payloadString (payload : JSObject) : String :=
  jsonStringify payload (some (sortKeys (objectKeys payload)))

/-- Function `createPayloadHash(payload)`. -/
def createPayloadHash (sha256 : List Nat → List Nat) (payload : JSObject) : String :=
  hashString sha256 (payloadString payload)

/-- Function `verifyPayloadHash(payload, hash)`. -/
def verifyPayloadHash (sha256 : List Nat → List Nat) (payload : JSObject) (hash : String) :
    Bool :=
  let computedHash := createPayloadHash sha256 payload
  computedHash == hash

/-- One element of `payload.selections`. -/
structure SelectionEntry where
  position : String
  candidate_id : String
deriving DecidableEq, Repr

/-- The vote payload `{election_id, timestamp, selections}`. -/
structure VotePayload where
  election_id : String
  timestamp : String
  selections : List SelectionEntry
deriving DecidableEq, Repr

/-- The object literal `{ position, candidate_id: candidateId }`. -/
def SelectionEntry.toJS (e : SelectionEntry) : JSVal :=
  .obj [("position", .str e.position), ("candidate_id", .str e.candidate_id)]

/-- The object literal of `createVotePayload`, keys in the order written. -/
def VotePayload.toJS (p : VotePayload) : JSObject :=
  [("election_id", .str p.election_id),
   ("timestamp", .str p.timestamp),
   ("selections", .arr (p.selections.map SelectionEntry.toJS))]

/-- The Selection Set: position label ↦ chosen candidate id, as the
object's entries in enumeration order. -/
abbrev Selections := List (String × String)

/-- Function `createVotePayload(selections, electionId)`; `now` is
`new Date().toISOString()`. -/
def createVotePayload (now : String) (selections : Selections) (electionId : String) :
    VotePayload :=
  { election_id := electionId
    timestamp := now
    selections := selections.map fun e => { position := e.1, candidate_id := e.2 } }

/-! ## The hosted store, seen from the client -/

/-- A thrown value / the `error` member of a store reply; `message` is what
`error.message` evaluates to (`none`: `undefined`). -/
structure JSError where
  message : Option String
deriving DecidableEq, Repr

/-- The `{ data, error }` reply of a store query. -/
structure Response (α : Type) where
  data : Option α
  error : Option JSError

/-- The voter object held in `App` state and passed to the pages: the row of
`voters` that `Login` verified (`has_voted` is the flag read at login). -/
structure Voter where
  student_id : String
  name : String
  has_voted : Bool := false
deriving DecidableEq, Repr

/-- A row of `select('has_voted, student_id, name')` on `voters`. -/
structure VotingStatus where
  has_voted : Bool
  student_id : String
  name : String
deriving DecidableEq, Repr

/-- A row of `elections`. -/
structure Election where
  id : String
  title : String
  status : String
deriving DecidableEq, Repr

/-- A row of `candidates`. -/
structure Candidate where
  id : String
  name : String
  party : String
  position : String
  election_id : String
deriving DecidableEq, Repr

/-- The object `submitVote` inserts into `votes`. -/
structure VoteRow where
  election_id : String
  vote_token : String
  payload : JSObject
  payload_hash : String

/-- The requests the client sends to the store. -/
inductive Call where
  | selectVotingStatus (studentId : String)
  | selectRunningElection
  | selectCandidatesByElection (electionId : String)
  | insertVote (row : VoteRow)
  | rpcMarkVoterAsVoted (studentId : String)
  | selectActiveVoter (studentId : String)
  | selectVoterFlags

/-- A row of `select('has_voted, is_active')` on `voters`. -/
structure VoterFlags where
  has_voted : Bool
  is_active : Bool
deriving DecidableEq, Repr

/-- The store as the client sees it: each request maps the store state to an
awaited outcome (`Except.error`: the promise rejects) and a new store state. -/
structure Supabase (σ : Type) where
  /-- Query `from('voters').select('has_voted, student_id, name').eq('student_id', id).single()`. -/
  selectVotingStatus : String → σ → Except JSError (Response VotingStatus) × σ
  /-- Query `from('elections').select('*').eq('status', 'running').single()`. -/
  selectRunningElection : σ → Except JSError (Response Election) × σ
  /-- Query `from('candidates').select('*').eq('election_id', id).order(..).order(..)`. -/
  selectCandidatesByElection : String → σ → Except JSError (Response (List Candidate)) × σ
  /-- Request `from('votes').insert([row])`; the value is the reply's `error`. -/
  insertVote : VoteRow → σ → Except JSError (Option JSError) × σ
  /-- Request `rpc('mark_voter_as_voted', { p_student_id })`; the value is the reply's `error`. -/
  rpcMarkVoterAsVoted : String → σ → Except JSError (Option JSError) × σ
  /-- Query `from('voters').select('*').eq('student_id', id).eq('is_active', true).single()`. -/
  selectActiveVoter : String → σ → Except JSError (Response Voter) × σ
  /-- Query `from('voters').select('has_voted, is_active')`. -/
  selectVoterFlags : σ → Except JSError (Response (List VoterFlags)) × σ

/-- Platform values read during one submission. -/
structure Platform where
  /-- Primitive `crypto.subtle.digest('SHA-256', ·)`. -/
  sha256 : List Nat → List Nat
  /-- The value `crypto.randomUUID()` returns. -/
  randomUUID : String
  /-- The value `new Date().toISOString()` returns. -/
  now : String
  /-- The message of the `TypeError` thrown by reading a property of `null`. -/
  nullPropertyMessage : String
  /-- The message of the `TypeError` thrown by calling a value that is not a
  function. -/
  notFunctionMessage : String := "is not a function"

/-- State of the `Review` component. -/
structure ReviewState where
  candidates : List (String × Candidate)
  election : Option Election
  loading : Bool
  submitting : Bool
  showConfirm : Bool
deriving DecidableEq, Repr

/-- Everything a handler can read or change. -/
structure World (σ : Type) where
  /-- State of the hosted store. -/
  db : σ
  /-- Requests sent to the store so far, oldest first. -/
  calls : List Call
  /-- Messages shown with `alert`, oldest first. -/
  alerts : List String
  /-- Targets of `navigate`, oldest first. -/
  navigations : List String
  /-- State of the mounted `Review` component. -/
  review : ReviewState

namespace World

variable {σ : Type}

/-- Send one request to the store and log it. -/
def request {α : Type} (c : Call) (f : σ → α × σ) (w : World σ) : α × World σ :=
  ((f w.db).1, { w with db := (f w.db).2, calls := w.calls ++ [c] })

/-- Browser call `alert(msg)`. -/
def alert (msg : String) (w : World σ) : World σ :=
  { w with alerts := w.alerts ++ [msg] }

/-- Router call `navigate(path)`. -/
def navigate (path : String) (w : World σ) : World σ :=
  { w with navigations := w.navigations ++ [path] }

/-- State setter `setSubmitting(b)`. -/
def setSubmitting (b : Bool) (w : World σ) : World σ :=
  { w with review := { w.review with submitting := b } }

/-- State setter `setShowConfirm(b)`. -/
def setShowConfirm (b : Bool) (w : World σ) : World σ :=
  { w with review := { w.review with showConfirm := b } }

/-- State setter `setElection(e)`. -/
def setElection (e : Option Election) (w : World σ) : World σ :=
  { w with review := { w.review with election := e } }

/-- State setter `setCandidates(m)`. -/
def setCandidates (m : List (String × Candidate)) (w : World σ) : World σ :=
  { w with review := { w.review with candidates := m } }

/-- State setter `setLoading(b)`. -/
def setLoading (b : Bool) (w : World σ) : World σ :=
  { w with review := { w.review with loading := b } }

end World

/-! ## `src/services/supabaseAPI.js` -/

section Services

variable {σ : Type}

/-- Function `authService.checkVotingStatus(studentId)`. -/
def authService.checkVotingStatus (sb : Supabase σ) (studentId : String) (w : World σ) :
    Except JSError (Response VotingStatus) × World σ :=
  w.request (.selectVotingStatus studentId) (sb.selectVotingStatus studentId)

/-- Function `electionService.getActiveElection()`. -/
def electionService.getActiveElection (sb : Supabase σ) (w : World σ) :
    Except JSError (Response Election) × World σ :=
  w.request .selectRunningElection sb.selectRunningElection

/-- Function `candidateService.getCandidatesByElection(electionId)`. -/
def candidateService.getCandidatesByElection (sb : Supabase σ) (electionId : String)
    (w : World σ) : Except JSError (Response (List Candidate)) × World σ :=
  w.request (.selectCandidatesByElection electionId) (sb.selectCandidatesByElection electionId)

/-- The `{ success, error }` object returned by the voting service. -/
structure VoteResult where
  success : Bool
  error : Option JSError
deriving DecidableEq, Repr

/-- Function `votingService.submitVote(electionId, voteToken, payload, payloadHash)`. -/
def votingService.submitVote (sb : Supabase σ) (electionId voteToken : String)
    (payload : JSObject) (payloadHash : String) (w : World σ) : VoteResult × World σ :=
  let row : VoteRow :=
    { election_id := electionId, vote_token := voteToken, payload := payload,
      payload_hash := payloadHash }
  let r := w.request (.insertVote row) (sb.insertVote row)
  match r.1 with
  | .ok none => ({ success := true, error := none }, r.2)
  | .ok (some voteError) => ({ success := false, error := some voteError }, r.2)
  | .error error => ({ success := false, error := some error }, r.2)

/-- Function `votingService.markVoterAsVoted(studentId)`: the `error` of the reply. -/
def votingService.markVoterAsVoted (sb : Supabase σ) (studentId : String) (w : World σ) :
    Except JSError (Option JSError) × World σ :=
  w.request (.rpcMarkVoterAsVoted studentId) (sb.rpcMarkVoterAsVoted studentId)

/-- Function `votingService.completeVoting(electionId, studentId, voteToken, payload,
payloadHash)`. -/
def votingService.completeVoting (sb : Supabase σ) (electionId studentId voteToken : String)
    (payload : JSObject) (payloadHash : String) (w : World σ) : VoteResult × World σ :=
  let voteResult := votingService.submitVote sb electionId voteToken payload payloadHash w
  if voteResult.1.success = false then
    ({ success := false, error := voteResult.1.error }, voteResult.2)
  else
    let markResult := votingService.markVoterAsVoted sb studentId voteResult.2
    match markResult.1 with
    | .error error => ({ success := false, error := some error }, markResult.2)
    | .ok (some error) => ({ success := false, error := some error }, markResult.2)
    | .ok none => ({ success := true, error := none }, markResult.2)

end Services

/-! ## `src/pages/Review.jsx` -/

section Review

variable {σ : Type}

/-- Function `generateVoteToken()`. -/
def generateVoteToken (pf : Platform) : String := pf.randomUUID

/-- The text of `err.message` inside a string concatenation. -/
def JSError.messageText (err : JSError) : String := err.message.getD "undefined"

/-- The value of `error?.message || 'Failed to submit vote'`. -/
def submitErrorMessage (error : Option JSError) : String :=
  match error with
  | some e =>
    match e.message with
    | some m => if m = "" then "Failed to submit vote" else m
    | none => "Failed to submit vote"
  | none => "Failed to submit vote"

/-- The value of `votingStatus && votingStatus.has_voted`, as a condition. -/
def alreadyVoted (votingStatus : Option VotingStatus) : Bool :=
  match votingStatus with
  | some st => st.has_voted
  | none => false

/-- The `try` block of `handleSubmitVote`: `Except.error err` when it throws `err`. -/
def handleSubmitVoteTry (sb : Supabase σ) (pf : Platform) (voter : Voter)
    (selections : Selections) (w : World σ) : Except JSError Unit × World σ :=
  -- Double-check voting status before submission
  let status := authService.checkVotingStatus sb voter.student_id w
  match status.1 with
  | .error err => (.error err, status.2)
  | .ok reply =>
    let votingStatus := reply.data
    if alreadyVoted votingStatus then
      (.ok (),
        ((status.2.alert "You have already voted. Cannot submit another vote.").setSubmitting
          false).navigate "/ballot")
    else
      -- Validate all selections are present
      let selectionCount := (selections.map Prod.fst).length
      if selectionCount ≠ 10 then
        (.ok (),
          ((status.2.alert
            ("Error: You must select exactly 10 positions. You have selected "
              ++ toString selectionCount ++ ".")).setSubmitting false).navigate "/ballot")
      else
        let voteToken := generateVoteToken pf
        match status.2.review.election with
        | none => (.error { message := some pf.nullPropertyMessage }, status.2)
        | some election =>
          let payload := createVotePayload pf.now selections election.id
          -- Verify payload has 10 selections
          if payload.selections.length ≠ 10 then
            (.ok (),
              (status.2.alert
                ("Error: Invalid vote payload. Expected 10 selections, got "
                  ++ toString payload.selections.length ++ ".")).setSubmitting false)
          else
            let payloadHash := createPayloadHash pf.sha256 payload.toJS
            let result := votingService.completeVoting sb election.id voter.student_id
              voteToken payload.toJS payloadHash status.2
            if result.1.success = false ∨ result.1.error.isSome then
              (.error { message := some (submitErrorMessage result.1.error) }, result.2)
            else
              (.ok (), result.2.navigate "/thank-you")

/-- The assignment `o[k] = v` on a plain object whose keys are not array
indices: an existing key keeps its place, a new key goes last. -/
def setProp {α : Type} (k : String) (v : α) : List (String × α) → List (String × α)
  | [] => [(k, v)]
  | (k2, v2) :: rest => if k2 = k then (k, v) :: rest else (k2, v2) :: setProp k v rest

/-- The `for (const id of candidateIds)` loop of `loadReviewData`, from the
map built so far. -/
def loadCandidateMap (sb : Supabase σ) (pf : Platform) (electionData : Option Election) :
    List String → List (String × Candidate) → World σ →
      Except JSError (List (String × Candidate)) × World σ
  | [], candidateMap, w => (.ok candidateMap, w)
  | id :: ids, candidateMap, w =>
    match electionData with
    | none => (.error { message := some pf.nullPropertyMessage }, w)
    | some election =>
      let r := candidateService.getCandidatesByElection sb election.id w
      match r.1 with
      | .error err => (.error err, r.2)
      | .ok reply =>
        match reply.data with
        | none => (.error { message := some pf.nullPropertyMessage }, r.2)
        | some allCandidates =>
          match allCandidates.find? fun c => c.id = id with
          | some candidate =>
            loadCandidateMap sb pf electionData ids (setProp id candidate candidateMap) r.2
          | none => loadCandidateMap sb pf electionData ids candidateMap r.2

/-- Function `loadReviewData()`, run when the `Review` page mounts. -/
def loadReviewData (sb : Supabase σ) (pf : Platform) (selections : Selections)
    (w : World σ) : World σ :=
  let active := electionService.getActiveElection sb w
  match active.1 with
  | .error _ => active.2.setLoading false
  | .ok reply =>
    let electionData := reply.data
    let w1 := active.2.setElection electionData
    -- Load candidate details for selected IDs
    let candidateIds := selections.map Prod.snd
    let loaded := loadCandidateMap sb pf electionData candidateIds [] w1
    match loaded.1 with
    | .error _ => loaded.2.setLoading false
    | .ok candidateMap => (loaded.2.setCandidates candidateMap).setLoading false

/-- Handler `handleSubmitVote()` of the `Review` page, for the props `voter` and
`selections`. -/
def handleSubmitVote (sb : Supabase σ) (pf : Platform) (voter : Voter)
    (selections : Selections) (w : World σ) : World σ :=
  let r := handleSubmitVoteTry sb pf voter selections
    ((w.setSubmitting true).setShowConfirm false)
  match r.1 with
  | .ok _ => r.2
  | .error err => (r.2.alert ("Error submitting vote: " ++ err.messageText)).setSubmitting false

end Review

/-! ## A store to run the client against -/

/-- A row of `voters`. -/
structure VoterRow where
  student_id : String
  name : String
  is_active : Bool
  has_voted : Bool
deriving DecidableEq, Repr

/-- Modelled from the spec: the tables of the hosted store (the schema and
the `mark_voter_as_voted` procedure are not part of the client's sources),
with the two simulated store errors of the end-to-end scenarios. -/
structure Store where
  voters : List VoterRow
  elections : List Election
  candidates : List Candidate
  votes : List VoteRow
  /-- Simulated error of `insert_vote_record` (`none`: the insert succeeds). -/
  insertFault : Option JSError
  /-- Simulated error of `set_voter_voted` (`none`: the update succeeds). -/
  markFault : Option JSError

namespace Store

/-- The error of a single-row lookup that finds no row. -/
def noRow : JSError := { message := some "no row" }

/-- Modelled from the spec: `get_voter_status(voter_id) -> {has_voted}`,
single-row lookup by unique key. -/
def getVoterStatus (voterId : String) (s : Store) : Response VotingStatus :=
  match s.voters.find? fun v => v.student_id = voterId with
  | some v =>
    { data := some { has_voted := v.has_voted, student_id := v.student_id, name := v.name }
      error := none }
  | none => { data := none, error := some noRow }

/-- Modelled from the spec: `get_active_election() -> election or none`. -/
def getActiveElection (s : Store) : Response Election :=
  match s.elections.find? fun e => e.status = "running" with
  | some e => { data := some e, error := none }
  | none => { data := none, error := some noRow }

/-- Modelled from the spec: `list_candidates(election_id) -> ordered list`
(in the order the store holds them). -/
def listCandidates (electionId : String) (s : Store) : Response (List Candidate) :=
  { data := some (s.candidates.filter fun c => c.election_id = electionId), error := none }

/-- Modelled from the spec: `insert_vote_record(election_id, token, payload,
hash) -> success|error`, append-only, no uniqueness constraint. -/
def insertVoteRecord (row : VoteRow) (s : Store) : Option JSError × Store :=
  match s.insertFault with
  | some e => (some e, s)
  | none => (none, { s with votes := s.votes ++ [row] })

/-- Modelled from the spec: `set_voter_voted(voter_id) -> success|error`, set
has-voted to true for this voter id. -/
def setVoterVoted (voterId : String) (s : Store) : Option JSError × Store :=
  match s.markFault with
  | some e => (some e, s)
  | none =>
    (none,
      { s with
        voters := s.voters.map fun v =>
          if v.student_id = voterId then { v with has_voted := true } else v })

/-- The has-voted flag the store holds for a voter id (`false` when it holds
no such voter). -/
def hasVoted (s : Store) (voterId : String) : Bool :=
  match s.voters.find? fun v => v.student_id = voterId with
  | some v => v.has_voted
  | none => false

/-- The reply to the login query: the one active row of `voters` with this
student id. -/
def getActiveVoter (studentId : String) (s : Store) : Response Voter :=
  match s.voters.find? fun v => v.student_id = studentId ∧ v.is_active = true with
  | some v =>
    { data := some { student_id := v.student_id, name := v.name, has_voted := v.has_voted }
      error := none }
  | none => { data := none, error := some noRow }

/-- The reply to the turnout query: the two flags of every row of `voters`. -/
def listVoterFlags (s : Store) : Response (List VoterFlags) :=
  { data := some (s.voters.map fun v => { has_voted := v.has_voted, is_active := v.is_active })
    error := none }

/-- The store behind the client's requests; no request rejects. -/
def backend : Supabase Store where
  selectVotingStatus id s := (.ok (getVoterStatus id s), s)
  selectRunningElection s := (.ok (getActiveElection s), s)
  selectCandidatesByElection id s := (.ok (listCandidates id s), s)
  insertVote row s := (.ok (insertVoteRecord row s).1, (insertVoteRecord row s).2)
  rpcMarkVoterAsVoted id s := (.ok (setVoterVoted id s).1, (setVoterVoted id s).2)
  selectActiveVoter id s := (.ok (getActiveVoter id s), s)
  selectVoterFlags s := (.ok (listVoterFlags s), s)

/-- A world whose store has its simulated `set_voter_voted` error replaced:
between two attempts the error may stay, clear or appear. -/
def withMarkFault (m : Option JSError) (w : World Store) : World Store :=
  { w with db := { w.db with markFault := m } }

end Store

/-! ## Observations on a run -/

/-- The requests that write to the store. -/
def Call.isWrite : Call → Bool
  | .insertVote _ => true
  | .rpcMarkVoterAsVoted _ => true
  | _ => false

/-- The rows of the `insert` requests in a log, oldest first. -/
def insertedRows : List Call → List VoteRow
  | [] => []
  | .insertVote row :: rest => row :: insertedRows rest
  | _ :: rest => insertedRows rest

/-- The distinct elements of a list in order of first occurrence:
`[...new Set(xs)]`. -/
def newSet : List String → List String
  | [] => []
  | x :: xs => x :: (newSet xs).filter fun y => y ≠ x

/-- The distinct positions among the loaded candidates, as `Ballot.jsx`
computes them: `[...new Set(allCandidates.map(c => c.position))]`. -/
def distinctPositions (allCandidates : List Candidate) : List String :=
  newSet (allCandidates.map fun c => c.position)

/-- The sorted-key JSON form the specification gives for a vote payload:
`{election_id, selections:[{candidate_id, position}, ...], timestamp}`, every
object with its keys in lexicographic order and every entry with its values. -/
def canonicalForm (p : VotePayload) : JSObject :=
  [("election_id", .str p.election_id),
   ("selections", .arr (p.selections.map fun e =>
      .obj [("candidate_id", .str e.candidate_id), ("position", .str e.position)])),
   ("timestamp", .str p.timestamp)]

/-- The canonical string of the specification: the plain serialization of
`canonicalForm`. -/
def canonicalString (p : VotePayload) : String := jsonStringify (canonicalForm p) none

/-- The value `o[k]` of a plain object (`none`: `undefined`). -/
def getProp {α : Type} (k : String) : List (String × α) → Option α
  | [] => none
  | (k2, v) :: rest => if k2 = k then some v else getProp k rest

/-- The characters `0`-`9` and `a`-`f`. -/
def isLowerHexDigit (c : Char) : Bool := c ∈ "0123456789abcdef".data

/-! ## `src/App.jsx`, `src/components/ProtectedRoute.jsx`, `src/pages/ThankYou.jsx` -/

/-- The admin object `Login` builds: `{ email, role, id }`. -/
structure AdminData where
  email : String
  role : String
  id : String
deriving DecidableEq, Repr

/-- State of the `App` component (`voter`, `admin`, `selections`) and the
entries of the browser's `sessionStorage`. -/
structure AppState where
  voter : Option Voter
  admin : Option AdminData
  selections : Selections
  sessionStorage : List (String × String)
deriving DecidableEq, Repr

/-- The storage after `sessionStorage.removeItem(key)`. -/
def removeItem (key : String) (storage : List (String × String)) : List (String × String) :=
  storage.filter fun entry => entry.1 ≠ key

/-- Handler `handleLogout()` of `App`. -/
def App.handleLogout (app : AppState) : AppState :=
  { voter := none
    admin := none
    selections := []
    sessionStorage := removeItem "admin" (removeItem "voter" app.sessionStorage) }

/-- Component `ProtectedRoute({ isAllowed, redirectPath, children })`: the
location shown for the route at `path`. -/
def ProtectedRoute (isAllowed : Bool) (redirectPath : String) (path : String) : String :=
  if !isAllowed then redirectPath else path

/-- The value of `!!voter && !voter.has_voted`. -/
def App.voterMayVote (app : AppState) : Bool :=
  match app.voter with
  | some voter => !voter.has_voted
  | none => false

/-- The location `App` shows after `navigate(path)`, for the paths the client
navigates to: the routes of `App.jsx` with their guards (`redirectPath` is left
at its default `'/'`), any other path falling back to `'/'`. -/
def App.route (app : AppState) (path : String) : String :=
  if path = "/" then "/"
  else if path = "/login" then "/login"
  else if path = "/ballot" then ProtectedRoute (App.voterMayVote app) "/" "/ballot"
  else if path = "/review" then ProtectedRoute (App.voterMayVote app) "/" "/review"
  else if path = "/thank-you" then ProtectedRoute app.voter.isSome "/" "/thank-you"
  else if path = "/admin/dashboard" then ProtectedRoute app.admin.isSome "/" "/admin/dashboard"
  else "/"

/-- The client as a whole: the state of `App` and everything below it. -/
structure Client (σ : Type) where
  app : AppState
  world : World σ

/-- The `handleSubmitVote` of the `Review` element that `App` renders at
`/review`: `<Review voter={voter} selections={selections} onLogout={handleLogout} />`
under its route guard.  `Review` receives no setter of `App` and its handler
does not call `onLogout`. -/
def App.reviewHandleSubmitVote {σ : Type} (sb : Supabase σ) (pf : Platform) (c : Client σ) :
    Client σ :=
  match c.app.voter with
  | some voter =>
    if App.voterMayVote c.app then
      { c with world := handleSubmitVote sb pf voter c.app.selections c.world }
    else c
  | none => c

/-- Handler `handleLogout()` of the `ThankYou` page, whose `onLogout` is
`App.handleLogout`; its 10 second timer and its button call it. -/
def ThankYou.handleLogout {σ : Type} (c : Client σ) : Client σ :=
  { app := App.handleLogout c.app, world := c.world.navigate "/" }

/-! ## Property reads on plain objects -/

/-- The property names every plain object inherits from `Object.prototype`;
each of them holds a function or an object, so a truthy value that is not an
array. -/
def objectPrototypeKeys : List String :=
  ["constructor", "__defineGetter__", "__defineSetter__", "hasOwnProperty",
   "__lookupGetter__", "__lookupSetter__", "isPrototypeOf", "propertyIsEnumerable",
   "toString", "valueOf", "__proto__", "toLocaleString"]

/-- The outcome of reading `o[k]` on a plain object: an own property, a member
inherited from `Object.prototype`, or `undefined`. -/
inductive PropertyRead (α : Type) where
  | own (value : α)
  | inherited
  | undefined
deriving DecidableEq, Repr

/-- The read `o[k]` on a plain object. -/
def readProp {α : Type} (k : String) (o : List (String × α)) : PropertyRead α :=
  match getProp k o with
  | some v => .own v
  | none => if k ∈ objectPrototypeKeys then .inherited else .undefined

/-! ## `src/utils/helpers.js` -/

/-- The code points of the class `\s` of a JavaScript regular expression
(white space and line terminators). -/
def isJSWhitespace (n : Nat) : Bool :=
  n ∈ [9, 10, 11, 12, 13, 32, 160, 5760, 8232, 8233, 8239, 8287, 12288, 65279] ||
    (8192 ≤ n && n ≤ 8202)

/-- The distinctions the two patterns of `helpers.js` make between characters. -/
inductive CharClass where
  | space
  | at
  | dot
  | digit
  | other
deriving DecidableEq, Repr

/-- The class of a character: `\s`, `@`, `.`, `\d` (that is `0`-`9`), or none
of these. -/
def charClass (c : Char) : CharClass :=
  if isJSWhitespace c.toNat then .space
  else if c.toNat = 64 then .at
  else if c.toNat = 46 then .dot
  else if 48 ≤ c.toNat ∧ c.toNat ≤ 57 then .digit
  else .other

/-- The class `[^\s@]`. -/
def notSpaceAt : RegularExpression CharClass :=
  .char .dot + .char .digit + .char .other

/-- The quantifier `+`. -/
def oneOrMore (r : RegularExpression CharClass) : RegularExpression CharClass :=
  r * .star r

/-- The pattern `/^[^\s@]+@[^\s@]+\.[^\s@]+$/`. -/
def emailPattern : RegularExpression CharClass :=
  oneOrMore notSpaceAt * .char .at * oneOrMore notSpaceAt * .char .dot * oneOrMore notSpaceAt

/-- The pattern `/^\d{7}$/`. -/
def studentIdPattern : RegularExpression CharClass :=
  (.char .digit) ^ 7

/-- The call `re.test(s)` for a pattern anchored at both ends: the whole of `s`
matches. -/
def regexTest (re : RegularExpression CharClass) (s : String) : Bool :=
  re.rmatch (s.data.map charClass)

/-- Function `isValidEmail(email)`. -/
def isValidEmail (email : String) : Bool := regexTest emailPattern email

/-- Function `isValidStudentId(studentId)`. -/
def isValidStudentId (studentId : String) : Bool := regexTest studentIdPattern studentId

/-- Function `truncate(text, maxLength)` (callers that omit `maxLength` pass
50).  Lengths count characters, which for text of the Basic Multilingual Plane
are the UTF-16 code units JavaScript counts. -/
def truncate (text : String) (maxLength : Int) : String :=
  if text = "" ∨ (text.length : Int) ≤ maxLength then text
  else String.mk (text.data.take maxLength.toNat) ++ "..."

/-- Function `getTimeRemaining(endDate)`: `endDate` is `none` when the argument
is falsy and otherwise the time value in milliseconds it parses to; `now` is
the time value of `new Date()`. -/
def getTimeRemaining (endDate : Option Int) (now : Int) : String :=
  match endDate with
  | none => "Unknown"
  | some endTime =>
    let diff := endTime - now
    if diff ≤ 0 then "Ended"
    else
      let days := diff / (1000 * 60 * 60 * 24)
      let hours := (diff % (1000 * 60 * 60 * 24)) / (1000 * 60 * 60)
      let minutes := (diff % (1000 * 60 * 60)) / (1000 * 60)
      if days > 0 then
        toString days ++ " day" ++ (if days > 1 then "s" else "") ++ " remaining"
      else if hours > 0 then
        toString hours ++ " hour" ++ (if hours > 1 then "s" else "") ++ " remaining"
      else
        toString minutes ++ " minute" ++ (if minutes > 1 then "s" else "") ++ " remaining"

/-! ## More of `src/services/supabaseAPI.js` -/

/-- The `percentage` member of the turnout: the number `0`, or the string
`((voted / total) * 100).toFixed(2)` (floating point division and formatting,
kept symbolic). -/
inductive Percentage where
  | zero
  | toFixed2 (voted total : Nat)
deriving DecidableEq, Repr

/-- The `data` of `getTurnout`: `{ total, voted, percentage }`. -/
structure Turnout where
  total : Nat
  voted : Nat
  percentage : Percentage
deriving DecidableEq, Repr

/-- Function `voterService.getTurnout()`. -/
def voterService.getTurnout {σ : Type} (sb : Supabase σ) (pf : Platform) (w : World σ) :
    Except JSError (Response Turnout) × World σ :=
  let r := w.request .selectVoterFlags sb.selectVoterFlags
  match r.1 with
  | .error err => (.error err, r.2)
  | .ok reply =>
    match reply.error with
    | some error => (.ok { data := none, error := some error }, r.2)
    | none =>
      match reply.data with
      | none => (.error { message := some pf.nullPropertyMessage }, r.2)
      | some data =>
        let total := (data.filter fun v => v.is_active).length
        let voted := (data.filter fun v => v.has_voted && v.is_active).length
        let percentage := if total > 0 then Percentage.toFixed2 voted total else Percentage.zero
        (.ok { data := some { total := total, voted := voted, percentage := percentage }
               error := none }, r.2)

/-- Function `authService.verifyVoter(studentId)`. -/
def authService.verifyVoter {σ : Type} (sb : Supabase σ) (studentId : String) (w : World σ) :
    Except JSError (Response Voter) × World σ :=
  w.request (.selectActiveVoter studentId) (sb.selectActiveVoter studentId)

/-- The value of `candidate.party || 'Independent'`. -/
def partyOrIndependent (candidate : Candidate) : String :=
  if candidate.party = "" then "Independent" else candidate.party

/-- One step of the `reduce` of `getCandidatesGroupedByParty`, on the
accumulator `acc`: `Except.error` when `acc[party].push` is not a function,
which is the case when `acc[party]` is a member inherited from
`Object.prototype`. -/
def groupStep (pf : Platform) (acc : List (String × List Candidate)) (candidate : Candidate) :
    Except JSError (List (String × List Candidate)) :=
  let party := partyOrIndependent candidate
  match readProp party acc with
  | .own group => .ok (setProp party (group ++ [candidate]) acc)
  | .inherited => .error { message := some pf.notFunctionMessage }
  | .undefined => .ok (setProp party [candidate] acc)

/-- The call `data.reduce((acc, candidate) => ..., acc)` of
`getCandidatesGroupedByParty`. -/
def groupByParty (pf : Platform) :
    List Candidate → List (String × List Candidate) →
      Except JSError (List (String × List Candidate))
  | [], acc => .ok acc
  | candidate :: rest, acc =>
    match groupStep pf acc candidate with
    | .ok acc2 => groupByParty pf rest acc2
    | .error err => .error err

/-- Function `candidateService.getCandidatesGroupedByParty(electionId)`. -/
def candidateService.getCandidatesGroupedByParty {σ : Type} (sb : Supabase σ) (pf : Platform)
    (electionId : String) (w : World σ) :
    Except JSError (Response (List (String × List Candidate))) × World σ :=
  let r := w.request (.selectCandidatesByElection electionId)
    (sb.selectCandidatesByElection electionId)
  match r.1 with
  | .error err => (.error err, r.2)
  | .ok reply =>
    match reply.error with
    | some error => (.ok { data := none, error := some error }, r.2)
    | none =>
      match reply.data with
      | none => (.error { message := some pf.nullPropertyMessage }, r.2)
      | some data =>
        match groupByParty pf data [] with
        | .ok grouped => (.ok { data := some grouped, error := none }, r.2)
        | .error err => (.error err, r.2)

/-! ## `src/pages/Ballot.jsx` -/

/-- State of the `Ballot` component. -/
structure BallotState where
  election : Option Election
  candidatesByParty : List (String × List Candidate)
  loading : Bool
  error : String
  navigating : Bool
deriving DecidableEq, Repr

/-- The `Ballot` page: its state, the timers it has set with
`setTimeout(() => navigate(path), delay)` as pairs `(delay, path)`, and the
alerts it has shown. -/
structure BallotPage where
  state : BallotState
  timers : List (Nat × String)
  alerts : List String
deriving DecidableEq, Repr

/-- Handler `handleSelectCandidate(position, candidateId)`: the updater
`prev => ({ ...prev, [position]: candidateId })` applied to the selections. -/
def handleSelectCandidate (position candidateId : String) (prev : Selections) : Selections :=
  setProp position candidateId prev

/-- The `handleSelectCandidate` of the `Ballot` element that `App` renders,
whose `setSelections` is the setter of `App`. -/
def App.ballotHandleSelectCandidate (position candidateId : String) (app : AppState) :
    AppState :=
  { app with selections := handleSelectCandidate position candidateId app.selections }

/-- The array `Object.values(candidatesByParty).flat()`. -/
def allCandidates (candidatesByParty : List (String × List Candidate)) : List Candidate :=
  (candidatesByParty.map Prod.snd).flatten

/-- The truthiness of `selections[pos]`: a non-empty candidate id of the
Selection Set, or a member inherited from `Object.prototype`. -/
def selectionTruthy (selections : Selections) (pos : String) : Bool :=
  match readProp pos selections with
  | .own candidateId => candidateId ≠ ""
  | .inherited => true
  | .undefined => false

/-- Handler `handleProceedToReview()` of the `Ballot` page, for the prop
`selections`. -/
def handleProceedToReview (selections : Selections) (b : BallotPage) : BallotPage :=
  -- Get all unique positions
  let positions := newSet ((allCandidates b.state.candidatesByParty).map fun c => c.position)
  -- Check if all positions are filled
  let allPositionsFilled := positions.all fun pos => selectionTruthy selections pos
  if !allPositionsFilled then
    { b with
      alerts := b.alerts ++ ["Please select a candidate for each position before proceeding"] }
  else
    { b with
      state := { b.state with navigating := true }
      timers := b.timers ++ [(800, "/review")] }

/-! ## `src/pages/Login.jsx` -/

/-- State of the `Login` component. -/
structure LoginState where
  studentId : String
  loading : Bool
  error : String
deriving DecidableEq, Repr

/-- A call of one of the props of `Login`. -/
inductive LoginCallback where
  | onLogin (voter : Voter)
  | onAdminLogin (adminData : AdminData)
deriving DecidableEq, Repr

/-- The `Login` page: its state, the calls of its props so far, and the world. -/
structure LoginPage (σ : Type) where
  state : LoginState
  callbacks : List LoginCallback
  world : World σ

/-- The `try` block of `handleSubmit`: `Except.error` when it throws. -/
def Login.handleSubmitTry {σ : Type} (sb : Supabase σ) (p : LoginPage σ) :
    Except JSError Unit × LoginPage σ :=
  -- Check if admin login
  if p.state.studentId = "ADmin69" then
    let adminData : AdminData :=
      { email := "admin@electzone.edu", role := "admin", id := "admin-001" }
    (.ok (),
      { p with
        callbacks := p.callbacks ++ [.onAdminLogin adminData]
        world := p.world.navigate "/admin/dashboard"
        state := { p.state with loading := false } })
  else
    -- Regular voter login
    let r := authService.verifyVoter sb p.state.studentId p.world
    match r.1 with
    | .error err => (.error err, { p with world := r.2 })
    | .ok reply =>
      match reply.error, reply.data with
      | none, some voter =>
        if voter.has_voted then
          (.ok (),
            { p with
              world := r.2
              state :=
                { p.state with
                  error := "You have already cast your vote. Thank you for participating!"
                  loading := false } })
        else
          -- Login successful
          (.ok (),
            { p with
              callbacks := p.callbacks ++ [.onLogin voter]
              world := r.2.navigate "/ballot" })
      | _, _ =>
        (.ok (),
          { p with
            world := r.2
            state :=
              { p.state with
                error := "Invalid student ID or you are not registered to vote"
                loading := false } })

/-- Handler `handleSubmit(e)` of the `Login` page. -/
def Login.handleSubmit {σ : Type} (sb : Supabase σ) (p : LoginPage σ) : LoginPage σ :=
  let started : LoginPage σ := { p with state := { p.state with error := "", loading := true } }
  let r := Login.handleSubmitTry sb started
  match r.1 with
  | .ok _ => { r.2 with state := { r.2.state with loading := false } }
  | .error _ =>
    { r.2 with
      state :=
        { r.2.state with
          error := "An error occurred during login. Please try again."
          loading := false } }

/-! ## Sample data -/

namespace Sample

/-- A running election. -/
def election : Election := { id := "e1", title := "SSG Election", status := "running" }

/-- A roster with two distinct positions. -/
def roster : List Candidate :=
  [{ id := "c1", name := "Ana", party := "Blue", position := "President", election_id := "e1" },
   { id := "c2", name := "Ben", party := "Blue", position := "Vice President",
     election_id := "e1" },
   { id := "c3", name := "Cai", party := "Red", position := "President", election_id := "e1" }]

/-- A store with two voters who have not voted and one who has. -/
def store : Store :=
  { voters :=
      [{ student_id := "2021001", name := "Dan", is_active := true, has_voted := false },
       { student_id := "2021002", name := "Eve", is_active := true, has_voted := true },
       { student_id := "2021003", name := "Fay", is_active := true, has_voted := false }]
    elections := [election]
    candidates := roster
    votes := []
    insertFault := none
    markFault := none }

/-- A store error. -/
def storeError : JSError := { message := some "connection lost" }

/-- The store with a failing `insert_vote_record`. -/
def storeInsertFails : Store := { store with insertFault := some storeError }

/-- The store with a failing `set_voter_voted`. -/
def storeMarkFails : Store := { store with markFault := some storeError }

/-- Platform values of one submission. -/
def platform : Platform :=
  { sha256 := fun bytes => bytes.take 32
    randomUUID := "3f0c2c0e-0000-4000-8000-000000000001"
    now := "2025-01-01T00:00:00.000Z"
    nullPropertyMessage := "Cannot read properties of null" }

/-- The voter who has not voted. -/
def dan : Voter := { student_id := "2021001", name := "Dan" }

/-- The voter who has voted. -/
def eve : Voter := { student_id := "2021002", name := "Eve" }

/-- Another voter who has not voted. -/
def fay : Voter := { student_id := "2021003", name := "Fay" }

/-- A Selection Set of ten entries. -/
def tenSelections : Selections :=
  [("President", "c1"), ("Vice President", "c2"), ("Secretary", "c4"), ("Treasurer", "c5"),
   ("Auditor", "c6"), ("Business Manager", "c7"), ("Press Officer", "c8"),
   ("Peace Officer", "c9"), ("Muse", "c10"), ("Escort", "c11")]

/-- A Selection Set of eight entries. -/
def eightSelections : Selections := tenSelections.take 8

/-- A Selection Set with one entry for each of the two roster positions. -/
def twoSelections : Selections := [("President", "c1"), ("Vice President", "c2")]

/-- The `Review` page before it has loaded anything, on a given store. -/
def mounted (s : Store) : World Store :=
  { db := s, calls := [], alerts := [], navigations := []
    review :=
      { candidates := [], election := none, loading := true, submitting := false,
        showConfirm := false } }

/-- The `Review` page after `loadReviewData`, with the confirm dialog open. -/
def loaded (s : Store) (selections : Selections) : World Store :=
  (loadReviewData Store.backend platform selections (mounted s)).setShowConfirm true

/-- The row a submission of `tenSelections` inserts. -/
def row : VoteRow :=
  { election_id := election.id
    vote_token := platform.randomUUID
    payload := (createVotePayload platform.now tenSelections election.id).toJS
    payload_hash :=
      createPayloadHash platform.sha256
        (createVotePayload platform.now tenSelections election.id).toJS }

/-- Platform values of a second submission. -/
def platformRetry : Platform :=
  { platform with
    randomUUID := "3f0c2c0e-0000-4000-8000-000000000002"
    now := "2025-01-01T00:05:00.000Z" }

/-- The row a second submission of `tenSelections` inserts. -/
def rowRetry : VoteRow :=
  { election_id := election.id
    vote_token := platformRetry.randomUUID
    payload := (createVotePayload platformRetry.now tenSelections election.id).toJS
    payload_hash :=
      createPayloadHash platformRetry.sha256
        (createVotePayload platformRetry.now tenSelections election.id).toJS }

/-- A stand-in digest primitive that returns 32 bytes for every input. -/
def digest32 (bytes : List Nat) : List Nat :=
  (List.range 32).map fun i => (bytes.foldl (fun acc b => 31 * acc + b) i) % 256

/-- The entries of `twoSelections` inserted in the other order. -/
def twoSelectionsReversed : Selections := [("Vice President", "c2"), ("President", "c1")]

/-- A voter logged in with ten selections made, on the `Review` page of a
store. -/
def client (voter : Voter) (s : Store) : Client Store :=
  { app :=
      { voter := some voter, admin := none, selections := tenSelections
        sessionStorage := [("voter", voter.student_id), ("theme", "dark")] }
    world := loaded s tenSelections }

/-- A vote payload with one selection. -/
def payload : VotePayload :=
  { election_id := "e1", timestamp := "2025-01-01T00:00:00.000Z"
    selections := [{ position := "President", candidate_id := "c1" }] }

/-- The same payload with another candidate chosen. -/
def payloadOtherCandidate : VotePayload :=
  { payload with selections := [{ position := "President", candidate_id := "c3" }] }

/-- The payload object of `payload` with its fields written in another order. -/
def payloadOtherKeyOrder : JSObject :=
  [("selections", .arr (payload.selections.map SelectionEntry.toJS)),
   ("timestamp", .str payload.timestamp),
   ("election_id", .str payload.election_id)]

/-- The sample store with one more voter, inactive, whose vote is recorded. -/
def storeWithInactive : Store :=
  { store with
    voters := store.voters ++
      [{ student_id := "2020009", name := "Hal", is_active := false, has_voted := true }] }

/-- A voter object whose student id the store does not hold. -/
def gus : Voter := { student_id := "2029999", name := "Gus" }

/-- The `Login` page with a student id typed in, on a store. -/
def loginPage (studentId : String) (s : Store) : LoginPage Store :=
  { state := { studentId := studentId, loading := false, error := "" }
    callbacks := []
    world := mounted s }

/-- A candidate for a position whose label is a property name of
`Object.prototype`. -/
def oddPositionCandidate : Candidate :=
  { id := "c20", name := "Ivy", party := "Blue", position := "constructor",
    election_id := "e1" }

/-- A candidate of a party whose name is a property name of
`Object.prototype`. -/
def oddPartyCandidate : Candidate :=
  { id := "c21", name := "Jon", party := "constructor", position := "President",
    election_id := "e1" }

/-- The `Ballot` page with candidates loaded. -/
def ballotPage (candidatesByParty : List (String × List Candidate)) : BallotPage :=
  { state :=
      { election := some election, candidatesByParty := candidatesByParty, loading := false
        error := "", navigating := false }
    timers := []
    alerts := [] }

/-- The sample roster as `getCandidatesGroupedByParty` groups it. -/
def groupedRoster : List (String × List Candidate) :=
  [("Blue", roster.take 2), ("Red", roster.drop 2)]

/-- The sample store behind a connection on which the status lookup resolves
with an error and no row, `{ data: null, error: { message: 'timeout' } }`. -/
def lookupFailing : Supabase Store :=
  { Store.backend with
    selectVotingStatus := fun _ s =>
      (.ok { data := none, error := some { message := some "timeout" } }, s) }

/-- The sample store behind a connection on which the status lookup rejects. -/
def lookupRejecting : Supabase Store :=
  { Store.backend with
    selectVotingStatus := fun _ s => (.error { message := some "Failed to fetch" }, s) }

end Sample

end ElectZone

/-! ## The payload digest (`crypto.js`) -/

namespace ElectZone

theorem propertyList_payloadKeys (p : VotePayload) :
    propertyList (sortKeys (objectKeys p.toJS)) = ["election_id", "selections", "timestamp"] := by
  have h : objectKeys p.toJS = ["election_id", "timestamp", "selections"] := rfl
  rw [h]
  decide

theorem serializeItems_entries (es : List SelectionEntry) :
    serializeItems (some ["election_id", "selections", "timestamp"])
      (es.map SelectionEntry.toJS) = List.replicate es.length "\x7b\x7d" := by
  induction es with
  | nil => rfl
  | cons e es ih =>
    simp only [List.map_cons, serializeItems, List.length_cons, List.replicate_succ, ih]
    congr 1

/-- The string hashed for a vote payload: under the array replacer every
selection entry is written as the empty object. -/
theorem payloadString_toJS (p : VotePayload) :
    payloadString p.toJS =
      "\x7b\"election_id\":" ++ quoteJSONString p.election_id ++ ",\"selections\":["
        ++ ",".intercalate (List.replicate p.selections.length "\x7b\x7d")
        ++ "],\"timestamp\":" ++ quoteJSONString p.timestamp ++ "\x7d" := by
  unfold payloadString jsonStringify
  rw [Option.map_some', propertyList_payloadKeys]
  simp only [VotePayload.toJS, serializeJSONProperty, serializeProps, serializeItems_entries]
  have hq1 : quoteJSONString "election_id" = "\"election_id\"" := by decide
  have hq2 : quoteJSONString "selections" = "\"selections\"" := by decide
  have hq3 : quoteJSONString "timestamp" = "\"timestamp\"" := by decide
  simp [serializeMembers, lookupSerialized, String.intercalate, String.intercalate.go,
    hq1, hq2, hq3]
  apply String.ext
  simp [String.data_append]

end ElectZone

namespace ElectZone

/-- C7: verification recomputes the digest with `createPayloadHash` and
compares it with the stored one, so it accepts a digest exactly when it is the
payload's own digest; in particular `verifyPayloadHash(P, createPayloadHash(P))`
is true for every payload `P` and every digest primitive. -/
theorem verifyPayloadHash_createPayloadHash (sha256 : List Nat → List Nat)
    (payload : JSObject) :
    verifyPayloadHash sha256 payload (createPayloadHash sha256 payload) = true ∧
      ∀ hash : String,
        verifyPayloadHash sha256 payload hash = true ↔
          hash = createPayloadHash sha256 payload := by
  refine ⟨by simp [verifyPayloadHash], fun hash => ?_⟩
  simp only [verifyPayloadHash, beq_iff_eq]
  exact eq_comm

/-- C1 (fails on the code): replacing one selection entry of a vote payload
by any other entry (another position, another candidate id, or both) leaves the
hashed string unchanged, so `verifyPayloadHash` accepts the mutated payload
against the original digest, whatever the digest primitive. -/
theorem verifyPayloadHash_blind_to_selection_entry (sha256 : List Nat → List Nat)
    (electionId timestamp : String) (before after : List SelectionEntry)
    (entry mutated : SelectionEntry) :
    verifyPayloadHash sha256
        (VotePayload.toJS
          { election_id := electionId, timestamp := timestamp
            selections := before ++ mutated :: after })
        (createPayloadHash sha256
          (VotePayload.toJS
            { election_id := electionId, timestamp := timestamp
              selections := before ++ entry :: after })) = true := by
  simp [verifyPayloadHash, createPayloadHash, payloadString_toJS]

/-- C8 (fails on the code): for the sample payload with one selection, the
string `createPayloadHash` hashes writes the selection entry as the empty
object, while the sorted-key serialization of the whole payload shows the
entry with its `candidate_id` and `position`. -/
theorem payloadString_sample :
    payloadString Sample.payload.toJS =
        "\x7b\"election_id\":\"e1\",\"selections\":[\x7b\x7d],\"timestamp\":\"2025-01-01T00:00:00.000Z\"\x7d" ∧
      canonicalString Sample.payload =
        "\x7b\"election_id\":\"e1\",\"selections\":[\x7b\"candidate_id\":\"c1\",\"position\":\"President\"\x7d],\"timestamp\":\"2025-01-01T00:00:00.000Z\"\x7d" ∧
      payloadString Sample.payload.toJS ≠ canonicalString Sample.payload ∧
      payloadString Sample.payloadOtherCandidate.toJS = payloadString Sample.payload.toJS := by
  decide

end ElectZone

/-! ## The submission handler (`Review.jsx`, `supabaseAPI.js`) -/

namespace ElectZone

section Handler

variable {σ : Type}

theorem insertedRows_append (xs ys : List Call) :
    insertedRows (xs ++ ys) = insertedRows xs ++ insertedRows ys := by
  induction xs with
  | nil => rfl
  | cons c xs ih => cases c <;> simp [insertedRows, ih]

/-- C2: when the status lookup before submission returns a row with
`has_voted = true`, `handleSubmitVote` stops at the gate whatever the Selection
Set holds: the lookup is the only request sent, so neither the vote insert nor
`markVoterAsVoted` is invoked and the store is left as the lookup left it; the
voter is told and sent to `/ballot`. -/
theorem handleSubmitVote_already_voted (sb : Supabase σ) (pf : Platform) (voter : Voter)
    (selections : Selections) (w : World σ) (reply : Response VotingStatus)
    (row : VotingStatus) (db1 : σ)
    (hlookup : sb.selectVotingStatus voter.student_id w.db = (.ok reply, db1))
    (hrow : reply.data = some row) (hvoted : row.has_voted = true) :
    (handleSubmitVote sb pf voter selections w).calls =
        w.calls ++ [.selectVotingStatus voter.student_id] ∧
      (handleSubmitVote sb pf voter selections w).calls.filter Call.isWrite =
        w.calls.filter Call.isWrite ∧
      (handleSubmitVote sb pf voter selections w).db = db1 ∧
      (handleSubmitVote sb pf voter selections w).alerts =
        w.alerts ++ ["You have already voted. Cannot submit another vote."] ∧
      (handleSubmitVote sb pf voter selections w).navigations =
        w.navigations ++ ["/ballot"] ∧
      (handleSubmitVote sb pf voter selections w).review.submitting = false := by
  simp [handleSubmitVote, handleSubmitVoteTry, authService.checkVotingStatus, World.request,
    World.setSubmitting, World.setShowConfirm, World.alert, World.navigate, hlookup, hrow,
    alreadyVoted, hvoted, Call.isWrite]

/-- C3: when the insert of `completeVoting` fails (its reply carries an error
`e`, or the request rejects with `e`), the insert is the only request sent, so
`markVoterAsVoted` is never invoked; the result is `{success: false, error: e}`;
and the has-voted flag of every voter, as far as an insert into `votes` leaves
it alone, is what it was before the call. -/
theorem completeVoting_insert_fails (sb : Supabase σ) (hasVoted : σ → String → Bool)
    (electionId studentId voteToken : String) (payload : JSObject) (payloadHash : String)
    (w : World σ) (e : JSError)
    (hframe : ∀ row db id, hasVoted (sb.insertVote row db).2 id = hasVoted db id)
    (hfail :
      (sb.insertVote
          { election_id := electionId, vote_token := voteToken, payload := payload,
            payload_hash := payloadHash } w.db).1 = .ok (some e) ∨
        (sb.insertVote
          { election_id := electionId, vote_token := voteToken, payload := payload,
            payload_hash := payloadHash } w.db).1 = .error e) :
    (votingService.completeVoting sb electionId studentId voteToken payload payloadHash w).1 =
        { success := false, error := some e } ∧
      (votingService.completeVoting sb electionId studentId voteToken payload payloadHash
          w).2.calls =
        w.calls ++
          [.insertVote
            { election_id := electionId, vote_token := voteToken, payload := payload,
              payload_hash := payloadHash }] ∧
      (votingService.completeVoting sb electionId studentId voteToken payload payloadHash
          w).2.db =
        (sb.insertVote
          { election_id := electionId, vote_token := voteToken, payload := payload,
            payload_hash := payloadHash } w.db).2 ∧
      ∀ id,
        hasVoted
            (votingService.completeVoting sb electionId studentId voteToken payload
              payloadHash w).2.db id =
          hasVoted w.db id := by
  rcases hfail with h | h <;>
    simp [votingService.completeVoting, votingService.submitVote, World.request, h, hframe]

/-- C6: for every Selection Set whose number of entries is not 10,
`handleSubmitVote` returns without calling `completeVoting`: the status lookup
is the only request sent (no insert, no mark), the run ends with one alert and
without reaching `/thank-you`; when the gate has let the voter through, the
alert is the count error and the voter is sent to `/ballot`. -/
theorem handleSubmitVote_count_mismatch (sb : Supabase σ) (pf : Platform) (voter : Voter)
    (selections : Selections) (w : World σ) (hcount : selections.length ≠ 10) :
    (handleSubmitVote sb pf voter selections w).calls =
        w.calls ++ [.selectVotingStatus voter.student_id] ∧
      (handleSubmitVote sb pf voter selections w).calls.filter Call.isWrite =
        w.calls.filter Call.isWrite ∧
      (handleSubmitVote sb pf voter selections w).db =
        (sb.selectVotingStatus voter.student_id w.db).2 ∧
      (∃ msg, (handleSubmitVote sb pf voter selections w).alerts = w.alerts ++ [msg]) ∧
      ((handleSubmitVote sb pf voter selections w).navigations = w.navigations ∨
        (handleSubmitVote sb pf voter selections w).navigations =
          w.navigations ++ ["/ballot"]) ∧
      (handleSubmitVote sb pf voter selections w).review.submitting = false ∧
      ∀ reply, (sb.selectVotingStatus voter.student_id w.db).1 = .ok reply →
        alreadyVoted reply.data = false →
        (handleSubmitVote sb pf voter selections w).alerts =
            w.alerts ++
              ["Error: You must select exactly 10 positions. You have selected "
                ++ toString selections.length ++ "."] ∧
          (handleSubmitVote sb pf voter selections w).navigations =
            w.navigations ++ ["/ballot"] := by
  rcases hres : (sb.selectVotingStatus voter.student_id w.db).1 with err | reply
  · simp [handleSubmitVote, handleSubmitVoteTry, authService.checkVotingStatus, World.request,
      World.setSubmitting, World.setShowConfirm, World.alert, World.navigate, hres,
      Call.isWrite]
  · cases hv : alreadyVoted reply.data <;>
      simp [handleSubmitVote, handleSubmitVoteTry, authService.checkVotingStatus,
        World.request, World.setSubmitting, World.setShowConfirm, World.alert,
        World.navigate, hres, hv, hcount, Call.isWrite]

end Handler

end ElectZone

namespace ElectZone

section Submission

variable {σ : Type}

theorem loadCandidateMap_frame (sb : Supabase σ) (pf : Platform)
    (electionData : Option Election) (ids : List String) :
    ∀ (m : List (String × Candidate)) (w : World σ),
      (loadCandidateMap sb pf electionData ids m w).2.review = w.review ∧
        (loadCandidateMap sb pf electionData ids m w).2.alerts = w.alerts ∧
        (loadCandidateMap sb pf electionData ids m w).2.navigations = w.navigations := by
  induction ids with
  | nil => intro m w; simp [loadCandidateMap]
  | cons id ids ih =>
    intro m w
    unfold loadCandidateMap
    cases electionData with
    | none => simp
    | some election =>
      simp only
      split
      · simp [candidateService.getCandidatesByElection, World.request]
      · split
        · simp [candidateService.getCandidatesByElection, World.request]
        · split
          · rw [(ih _ _).1, (ih _ _).2.1, (ih _ _).2.2]
            simp [candidateService.getCandidatesByElection, World.request]
          · rw [(ih _ _).1, (ih _ _).2.1, (ih _ _).2.2]
            simp [candidateService.getCandidatesByElection, World.request]

/-- After `loadReviewData`, the election in component state is the `data` of
the `getActiveElection` reply; no alert is shown and nothing is navigated. -/
theorem loadReviewData_election (sb : Supabase σ) (pf : Platform) (selections : Selections)
    (w : World σ) (active : Response Election) (dbA : σ)
    (hactive : sb.selectRunningElection w.db = (.ok active, dbA)) :
    (loadReviewData sb pf selections w).review.election = active.data ∧
      (loadReviewData sb pf selections w).alerts = w.alerts ∧
      (loadReviewData sb pf selections w).navigations = w.navigations := by
  unfold loadReviewData
  simp only [electionService.getActiveElection, World.request, hactive]
  split
  · simp [World.setLoading, World.setElection, (loadCandidateMap_frame sb pf _ _ _ _).1,
      (loadCandidateMap_frame sb pf _ _ _ _).2.1, (loadCandidateMap_frame sb pf _ _ _ _).2.2]
  · simp [World.setLoading, World.setElection, World.setCandidates,
      (loadCandidateMap_frame sb pf _ _ _ _).1,
      (loadCandidateMap_frame sb pf _ _ _ _).2.1, (loadCandidateMap_frame sb pf _ _ _ _).2.2]

/-- The requests of `completeVoting`: the insert, then at most the mark. -/
theorem completeVoting_calls (sb : Supabase σ) (electionId studentId voteToken : String)
    (payload : JSObject) (payloadHash : String) (w : World σ) :
    insertedRows
        (votingService.completeVoting sb electionId studentId voteToken payload payloadHash
          w).2.calls =
      insertedRows w.calls ++
        [{ election_id := electionId, vote_token := voteToken, payload := payload,
           payload_hash := payloadHash }] ∧
      (votingService.completeVoting sb electionId studentId voteToken payload payloadHash
          w).2.alerts = w.alerts ∧
      (votingService.completeVoting sb electionId studentId voteToken payload payloadHash
          w).2.navigations = w.navigations ∧
      (votingService.completeVoting sb electionId studentId voteToken payload payloadHash
          w).2.review = w.review := by
  unfold votingService.completeVoting votingService.submitVote votingService.markVoterAsVoted
  simp only [World.request]
  split <;> split <;> (try split) <;> simp_all [insertedRows_append, insertedRows]

/-- The rows a run of `handleSubmitVote` inserts: none, or the one row built
from the election in component state, the token, the selections and the clock. -/
theorem handleSubmitVote_insertedRows (sb : Supabase σ) (pf : Platform) (voter : Voter)
    (selections : Selections) (w : World σ) :
    insertedRows (handleSubmitVote sb pf voter selections w).calls = insertedRows w.calls ∨
      ∃ el, w.review.election = some el ∧
        insertedRows (handleSubmitVote sb pf voter selections w).calls =
          insertedRows w.calls ++
            [{ election_id := el.id, vote_token := pf.randomUUID
               payload := (createVotePayload pf.now selections el.id).toJS
               payload_hash :=
                 createPayloadHash pf.sha256
                   (createVotePayload pf.now selections el.id).toJS }] := by
  rcases hres : (sb.selectVotingStatus voter.student_id w.db).1 with err | reply
  · left
    simp [handleSubmitVote, handleSubmitVoteTry, authService.checkVotingStatus, World.request,
      World.setSubmitting, World.setShowConfirm, World.alert, hres, insertedRows_append,
      insertedRows]
  · cases hv : alreadyVoted reply.data
    · by_cases hcount : selections.length = 10
      · cases hel : w.review.election with
        | none =>
          left
          simp [handleSubmitVote, handleSubmitVoteTry, authService.checkVotingStatus,
            World.request, World.setSubmitting, World.setShowConfirm, World.alert, hres, hv,
            hcount, hel, insertedRows_append, insertedRows]
        | some el =>
          right
          refine ⟨el, rfl, ?_⟩
          simp only [handleSubmitVote, handleSubmitVoteTry, authService.checkVotingStatus,
            World.request, World.setSubmitting, World.setShowConfirm, hres, hv, hcount, hel,
            createVotePayload, List.length_map, generateVoteToken]
          simp only [ne_eq, not_true_eq_false, if_false, Bool.false_eq_true]
          split <;> split <;>
            simp_all [World.alert, World.navigate, World.setSubmitting,
              (completeVoting_calls sb _ _ _ _ _ _).1, insertedRows_append, insertedRows]
      · left
        simp [handleSubmitVote, handleSubmitVoteTry, authService.checkVotingStatus,
          World.request, World.setSubmitting, World.setShowConfirm, World.alert,
          World.navigate, hres, hv, hcount, insertedRows_append, insertedRows]
    · left
      simp [handleSubmitVote, handleSubmitVoteTry, authService.checkVotingStatus,
        World.request, World.setSubmitting, World.setShowConfirm, World.alert,
        World.navigate, hres, hv, insertedRows_append, insertedRows]

end Submission

end ElectZone

namespace ElectZone

section Outcomes

variable {σ : Type}

/-- C4 (amended): when the gate has let the voter through, ten selections are
held, the election is loaded, the vote insert succeeds and `markVoterAsVoted`
fails with `e` (in its reply or by rejecting), `completeVoting` returns
`{success: false, error: e}` and `handleSubmitVote`, having sent the lookup, the
insert and the mark, shows the generic alert `'Error submitting vote: '`
followed by `e.message` (or `'Failed to submit vote'`), resets `submitting` and
navigates nowhere. -/
theorem handleSubmitVote_mark_fails (sb : Supabase σ) (pf : Platform) (voter : Voter)
    (selections : Selections) (w : World σ) (reply : Response VotingStatus) (el : Election)
    (e : JSError) (db1 db2 : σ)
    (hlookup : sb.selectVotingStatus voter.student_id w.db = (.ok reply, db1))
    (hgate : alreadyVoted reply.data = false)
    (hcount : selections.length = 10)
    (hel : w.review.election = some el)
    (hinsert :
      sb.insertVote
          { election_id := el.id, vote_token := pf.randomUUID
            payload := (createVotePayload pf.now selections el.id).toJS
            payload_hash :=
              createPayloadHash pf.sha256 (createVotePayload pf.now selections el.id).toJS }
          db1 = (.ok none, db2))
    (hmark :
      (sb.rpcMarkVoterAsVoted voter.student_id db2).1 = .ok (some e) ∨
        (sb.rpcMarkVoterAsVoted voter.student_id db2).1 = .error e) :
    (∀ w1 : World σ, w1.db = db1 →
        (votingService.completeVoting sb el.id voter.student_id pf.randomUUID
            (createVotePayload pf.now selections el.id).toJS
            (createPayloadHash pf.sha256 (createVotePayload pf.now selections el.id).toJS)
            w1).1 = { success := false, error := some e }) ∧
      (handleSubmitVote sb pf voter selections w).calls =
        w.calls ++
          [.selectVotingStatus voter.student_id,
           .insertVote
            { election_id := el.id, vote_token := pf.randomUUID
              payload := (createVotePayload pf.now selections el.id).toJS
              payload_hash :=
                createPayloadHash pf.sha256
                  (createVotePayload pf.now selections el.id).toJS },
           .rpcMarkVoterAsVoted voter.student_id] ∧
      (handleSubmitVote sb pf voter selections w).db =
        (sb.rpcMarkVoterAsVoted voter.student_id db2).2 ∧
      (handleSubmitVote sb pf voter selections w).alerts =
        w.alerts ++ ["Error submitting vote: " ++ submitErrorMessage (some e)] ∧
      (handleSubmitVote sb pf voter selections w).navigations = w.navigations ∧
      (handleSubmitVote sb pf voter selections w).review.submitting = false := by
  have hlen : (createVotePayload pf.now selections el.id).selections.length = 10 := by
    simp [createVotePayload, hcount]
  refine ⟨?_, ?_⟩
  · intro w1 hw1
    rcases hmark with h | h <;>
      simp [votingService.completeVoting, votingService.submitVote,
        votingService.markVoterAsVoted, World.request, hw1, hinsert, h]
  · rcases hmark with h | h <;>
      simp [handleSubmitVote, handleSubmitVoteTry, authService.checkVotingStatus,
        World.request, World.setSubmitting, World.setShowConfirm, World.alert,
        World.navigate, hlookup, hgate, hcount, hel, hlen, generateVoteToken,
        votingService.completeVoting, votingService.submitVote,
        votingService.markVoterAsVoted, hinsert, h, JSError.messageText]

/-- C5 (amended): the count `handleSubmitVote` requires is the constant 10,
for every store and hence every roster: once the gate has let the voter
through (and the election is loaded), a Selection Set of 10 entries reaches the
vote insert, with a payload of exactly 10 selection entries, and a Selection
Set of any other size is rejected with the count error and inserts nothing. -/
theorem handleSubmitVote_requires_ten (sb : Supabase σ) (pf : Platform) (voter : Voter)
    (selections : Selections) (w : World σ) (reply : Response VotingStatus) (el : Election)
    (db1 : σ)
    (hlookup : sb.selectVotingStatus voter.student_id w.db = (.ok reply, db1))
    (hgate : alreadyVoted reply.data = false)
    (hel : w.review.election = some el) :
    (selections.length = 10 →
        insertedRows (handleSubmitVote sb pf voter selections w).calls =
            insertedRows w.calls ++
              [{ election_id := el.id, vote_token := pf.randomUUID
                 payload := (createVotePayload pf.now selections el.id).toJS
                 payload_hash :=
                   createPayloadHash pf.sha256
                     (createVotePayload pf.now selections el.id).toJS }] ∧
          (createVotePayload pf.now selections el.id).selections.length = 10) ∧
      (selections.length ≠ 10 →
        insertedRows (handleSubmitVote sb pf voter selections w).calls =
            insertedRows w.calls ∧
          (handleSubmitVote sb pf voter selections w).alerts =
            w.alerts ++
              ["Error: You must select exactly 10 positions. You have selected "
                ++ toString selections.length ++ "."] ∧
          (handleSubmitVote sb pf voter selections w).navigations =
            w.navigations ++ ["/ballot"]) := by
  constructor
  · intro hcount
    have hlen : (createVotePayload pf.now selections el.id).selections.length = 10 := by
      simp [createVotePayload, hcount]
    refine ⟨?_, hlen⟩
    simp only [handleSubmitVote, handleSubmitVoteTry, authService.checkVotingStatus,
      World.request, World.setSubmitting, World.setShowConfirm, hlookup, hgate, hcount, hel,
      hlen, List.length_map, generateVoteToken]
    simp only [ne_eq, not_true_eq_false, if_false, Bool.false_eq_true]
    split <;> split <;>
      simp_all [World.alert, World.navigate, World.setSubmitting,
        (completeVoting_calls sb _ _ _ _ _ _).1, insertedRows_append, insertedRows]
  · intro hcount
    simp [handleSubmitVote, handleSubmitVoteTry, authService.checkVotingStatus,
      World.request, World.setSubmitting, World.setShowConfirm, World.alert,
      World.navigate, hlookup, hgate, hcount, insertedRows_append, insertedRows]

/-- C9: the row a submission inserts is built from the election, the token,
the payload and its digest only: two runs of `handleSubmitVote` for any two
voters (on any stores) with the same election, platform values and Selection
Set, each inserting one row, insert the same row, and that row is
`{election_id, vote_token, payload, payload_hash}` with the payload of
`createVotePayload`. -/
theorem inserted_row_independent_of_voter {τ : Type} (sb1 : Supabase σ) (sb2 : Supabase τ)
    (pf : Platform) (voter1 voter2 : Voter) (selections : Selections) (w1 : World σ)
    (w2 : World τ) (r1 r2 : VoteRow)
    (hel : w1.review.election = w2.review.election)
    (h1 : insertedRows (handleSubmitVote sb1 pf voter1 selections w1).calls =
      insertedRows w1.calls ++ [r1])
    (h2 : insertedRows (handleSubmitVote sb2 pf voter2 selections w2).calls =
      insertedRows w2.calls ++ [r2]) :
    r1 = r2 ∧
      ∃ el, w1.review.election = some el ∧
        r1 =
          { election_id := el.id, vote_token := pf.randomUUID
            payload := (createVotePayload pf.now selections el.id).toJS
            payload_hash :=
              createPayloadHash pf.sha256 (createVotePayload pf.now selections el.id).toJS } := by
  rcases handleSubmitVote_insertedRows sb1 pf voter1 selections w1 with h | ⟨el1, he1, h⟩
  · rw [h1] at h
    simp at h
  · rcases handleSubmitVote_insertedRows sb2 pf voter2 selections w2 with h' | ⟨el2, he2, h'⟩
    · rw [h2] at h'
      simp at h'
    · rw [h1] at h
      rw [h2] at h'
      have e1 := List.append_cancel_left h
      have e2 := List.append_cancel_left h'
      simp only [List.cons.injEq, and_true] at e1 e2
      have : el1 = el2 := by
        rw [he1, he2] at hel
        exact Option.some.inj hel
      subst this
      exact ⟨e1.trans e2.symm, el1, he1, e1⟩

/-- C10: on a page that has loaded the active election `el`, for a voter
whose status row has `has_voted = false`, a Selection Set of exactly 10 entries
and a store on which the insert and the mark succeed, `handleSubmitVote` sends
the lookup, then one insert of `{el.id, token, payload, digest of the payload}`
with the payload built from the selections, then the mark for this voter, and
ends by navigating to `/thank-you` without any alert. -/
theorem handleSubmitVote_success (sb : Supabase σ) (pf : Platform) (voter : Voter)
    (selections : Selections) (w0 : World σ) (active : Response Election) (el : Election)
    (dbA : σ) (reply : Response VotingStatus) (row : VotingStatus) (db1 db2 db3 : σ)
    (hactive : sb.selectRunningElection w0.db = (.ok active, dbA))
    (hel : active.data = some el)
    (hlookup :
      sb.selectVotingStatus voter.student_id (loadReviewData sb pf selections w0).db =
        (.ok reply, db1))
    (hrow : reply.data = some row) (hnot : row.has_voted = false)
    (hcount : selections.length = 10)
    (hinsert :
      sb.insertVote
          { election_id := el.id, vote_token := pf.randomUUID
            payload := (createVotePayload pf.now selections el.id).toJS
            payload_hash :=
              createPayloadHash pf.sha256 (createVotePayload pf.now selections el.id).toJS }
          db1 = (.ok none, db2))
    (hmark : sb.rpcMarkVoterAsVoted voter.student_id db2 = (.ok none, db3)) :
    (handleSubmitVote sb pf voter selections (loadReviewData sb pf selections w0)).calls =
        (loadReviewData sb pf selections w0).calls ++
          [.selectVotingStatus voter.student_id,
           .insertVote
            { election_id := el.id, vote_token := pf.randomUUID
              payload := (createVotePayload pf.now selections el.id).toJS
              payload_hash :=
                createPayloadHash pf.sha256
                  (createVotePayload pf.now selections el.id).toJS },
           .rpcMarkVoterAsVoted voter.student_id] ∧
      (handleSubmitVote sb pf voter selections (loadReviewData sb pf selections w0)).db =
        db3 ∧
      (handleSubmitVote sb pf voter selections
          (loadReviewData sb pf selections w0)).navigations =
        w0.navigations ++ ["/thank-you"] ∧
      (handleSubmitVote sb pf voter selections (loadReviewData sb pf selections w0)).alerts =
        w0.alerts := by
  have hlen : (createVotePayload pf.now selections el.id).selections.length = 10 := by
    simp [createVotePayload, hcount]
  obtain ⟨he, ha, hn⟩ := loadReviewData_election sb pf selections w0 active dbA hactive
  rw [hel] at he
  simp [handleSubmitVote, handleSubmitVoteTry, authService.checkVotingStatus,
    World.request, World.setSubmitting, World.setShowConfirm, World.alert,
    World.navigate, hlookup, hrow, hnot, alreadyVoted, hcount, he, ha, hn, hlen,
    generateVoteToken, votingService.completeVoting, votingService.submitVote,
    votingService.markVoterAsVoted, hinsert, hmark]

end Outcomes

end ElectZone

/-! ## Runs on the sample store -/

namespace ElectZone

open Sample

theorem Store.hasVoted_insertVote (row : VoteRow) (db : Store) (id : String) :
    Store.hasVoted (Store.backend.insertVote row db).2 id = Store.hasVoted db id := by
  simp only [Store.backend, Store.insertVoteRecord]
  cases db.insertFault <;> rfl

/-- Witness of C2: Eve, who has voted, submits ten selections. -/
theorem handleSubmitVote_already_voted_witness :
    (handleSubmitVote Store.backend platform eve tenSelections
        (loaded store tenSelections)).calls.filter Call.isWrite = [] ∧
      (handleSubmitVote Store.backend platform eve tenSelections
        (loaded store tenSelections)).db.votes.length = 0 ∧
      (handleSubmitVote Store.backend platform eve tenSelections
        (loaded store tenSelections)).navigations = ["/ballot"] :=
  have h := handleSubmitVote_already_voted Store.backend platform eve tenSelections
    (loaded store tenSelections) (Store.getVoterStatus "2021002" store)
    { has_voted := true, student_id := "2021002", name := "Eve" } store rfl rfl rfl
  ⟨h.2.1, by rw [h.2.2.1]; rfl, h.2.2.2.2.1⟩

/-- Witness of C3: `completeVoting` on the store whose insert fails. -/
theorem completeVoting_insert_fails_witness :
    (votingService.completeVoting Store.backend "e1" "2021001" row.vote_token row.payload
        row.payload_hash (loaded storeInsertFails tenSelections)).1 =
        { success := false, error := some storeError } ∧
      Store.hasVoted
        (votingService.completeVoting Store.backend "e1" "2021001" row.vote_token row.payload
          row.payload_hash (loaded storeInsertFails tenSelections)).2.db "2021001" = false :=
  have h := completeVoting_insert_fails Store.backend Store.hasVoted "e1" "2021001"
    row.vote_token row.payload row.payload_hash (loaded storeInsertFails tenSelections)
    storeError Store.hasVoted_insertVote (Or.inl rfl)
  ⟨h.1, by rw [h.2.2.2]; rfl⟩

/-- C4, counterexample: Dan submits ten selections on the store whose mark
fails and on the store whose insert fails.  `completeVoting` returns the same
result in both runs and `handleSubmitVote` shows the same alert, the generic
submission failure, although the first run has stored a vote and left Dan
unmarked. -/
theorem partial_write_reported_as_generic_failure :
    (votingService.completeVoting Store.backend "e1" "2021001" row.vote_token row.payload
        row.payload_hash (loaded storeMarkFails tenSelections)).1 =
      (votingService.completeVoting Store.backend "e1" "2021001" row.vote_token row.payload
        row.payload_hash (loaded storeInsertFails tenSelections)).1 ∧
      (handleSubmitVote Store.backend platform dan tenSelections
        (loaded storeMarkFails tenSelections)).alerts =
        ["Error submitting vote: connection lost"] ∧
      (handleSubmitVote Store.backend platform dan tenSelections
        (loaded storeInsertFails tenSelections)).alerts =
        ["Error submitting vote: connection lost"] ∧
      (handleSubmitVote Store.backend platform dan tenSelections
        (loaded storeMarkFails tenSelections)).navigations =
        (handleSubmitVote Store.backend platform dan tenSelections
          (loaded storeInsertFails tenSelections)).navigations ∧
      (handleSubmitVote Store.backend platform dan tenSelections
        (loaded storeMarkFails tenSelections)).db.votes.length = 1 ∧
      Store.hasVoted
        (handleSubmitVote Store.backend platform dan tenSelections
          (loaded storeMarkFails tenSelections)).db "2021001" = false ∧
      (handleSubmitVote Store.backend platform dan tenSelections
        (loaded storeInsertFails tenSelections)).db.votes.length = 0 := by
  decide

/-- Witness of C4 (amended): Dan submits on the store whose mark fails. -/
theorem handleSubmitVote_mark_fails_witness :
    (handleSubmitVote Store.backend platform dan tenSelections
        (loaded storeMarkFails tenSelections)).alerts =
        ["Error submitting vote: connection lost"] ∧
      (handleSubmitVote Store.backend platform dan tenSelections
        (loaded storeMarkFails tenSelections)).navigations = [] :=
  have h := handleSubmitVote_mark_fails Store.backend platform dan tenSelections
    (loaded storeMarkFails tenSelections) (Store.getVoterStatus "2021001" storeMarkFails)
    election storeError storeMarkFails (Store.insertVoteRecord row storeMarkFails).2
    rfl rfl rfl rfl rfl (Or.inl rfl)
  ⟨h.2.2.2.1, h.2.2.2.2.1⟩

/-- C5, counterexample: the sample roster has two distinct positions.  A
Selection Set with one entry for each of them is rejected by the count check
and inserts nothing, and a Selection Set of ten entries is accepted and
inserted. -/
theorem count_check_ignores_roster :
    (distinctPositions store.candidates).length = 2 ∧
      twoSelections.length = 2 ∧
      (handleSubmitVote Store.backend platform dan twoSelections
        (loaded store twoSelections)).alerts =
        ["Error: You must select exactly 10 positions. You have selected 2."] ∧
      (handleSubmitVote Store.backend platform dan twoSelections
        (loaded store twoSelections)).db.votes.length = 0 ∧
      tenSelections.length = 10 ∧
      (handleSubmitVote Store.backend platform dan tenSelections
        (loaded store tenSelections)).db.votes.length = 1 ∧
      (handleSubmitVote Store.backend platform dan tenSelections
        (loaded store tenSelections)).navigations = ["/thank-you"] := by
  decide

/-- Witness of C5 (amended): Dan's ten selections reach the insert. -/
theorem handleSubmitVote_requires_ten_witness :
    insertedRows
        (handleSubmitVote Store.backend platform dan tenSelections
          (loaded store tenSelections)).calls =
        insertedRows (loaded store tenSelections).calls ++ [row] ∧
      (createVotePayload platform.now tenSelections election.id).selections.length = 10 :=
  (handleSubmitVote_requires_ten Store.backend platform dan tenSelections
    (loaded store tenSelections) (Store.getVoterStatus "2021001" store) election store
    rfl rfl rfl).1 rfl

/-- Witness of C6: Dan submits eight selections. -/
theorem handleSubmitVote_count_mismatch_witness :
    (handleSubmitVote Store.backend platform dan eightSelections
        (loaded store eightSelections)).calls.filter Call.isWrite = [] ∧
      (handleSubmitVote Store.backend platform dan eightSelections
        (loaded store eightSelections)).alerts =
        ["Error: You must select exactly 10 positions. You have selected 8."] :=
  have h := handleSubmitVote_count_mismatch Store.backend platform dan eightSelections
    (loaded store eightSelections) (by decide)
  ⟨h.2.1, (h.2.2.2.2.2.2 (Store.getVoterStatus "2021001" store) rfl rfl).1⟩

/-- Witness of C9: Dan and Fay submit the same ten selections; each run
inserts one row, the same one. -/
theorem inserted_row_independent_of_voter_witness :
    insertedRows
        (handleSubmitVote Store.backend platform dan tenSelections
          (loaded store tenSelections)).calls = [row] ∧
      insertedRows
        (handleSubmitVote Store.backend platform fay tenSelections
          (loaded store tenSelections)).calls = [row] ∧
      row.election_id = "e1" :=
  have h := inserted_row_independent_of_voter Store.backend Store.backend platform dan fay
    tenSelections (loaded store tenSelections) (loaded store tenSelections) row row rfl
    rfl rfl
  ⟨rfl, rfl, by obtain ⟨_, el, hel, hrow⟩ := h; rfl⟩

/-- Witness of C10: Dan submits ten selections on the sample store. -/
theorem handleSubmitVote_success_witness :
    (handleSubmitVote Store.backend platform dan tenSelections
        (loadReviewData Store.backend platform tenSelections (mounted store))).navigations =
        ["/thank-you"] ∧
      (handleSubmitVote Store.backend platform dan tenSelections
        (loadReviewData Store.backend platform tenSelections (mounted store))).alerts = [] :=
  have h := handleSubmitVote_success Store.backend platform dan tenSelections
    (mounted store) (Store.getActiveElection store) election store
    (Store.getVoterStatus "2021001" store)
    { has_voted := false, student_id := "2021001", name := "Dan" } store
    (Store.insertVoteRecord row store).2
    (Store.setVoterVoted "2021001" (Store.insertVoteRecord row store).2).2
    rfl rfl rfl rfl rfl rfl rfl rfl
  ⟨h.2.2.1, h.2.2.2⟩

end ElectZone

/-! ## Canonical form and digest format (`crypto.js`) -/

namespace ElectZone

theorem perm_three {α : Type} {a b c : α} {l : List α} (h : l.Perm [a, b, c]) :
    l = [a, b, c] ∨ l = [a, c, b] ∨ l = [b, a, c] ∨ l = [b, c, a] ∨ l = [c, a, b] ∨
      l = [c, b, a] := by
  have hm := List.mem_permutations.mpr h
  simp [List.permutations, List.permutationsAux2] at hm
  tauto

/-- The string hashed for the fields of a vote payload written in any order
is the one hashed for the order `createVotePayload` writes. -/
theorem payloadString_perm (p : VotePayload) (o : JSObject) (h : o.Perm p.toJS) :
    payloadString o = payloadString p.toJS := by
  have hq1 : quoteJSONString "election_id" = "\"election_id\"" := by decide
  have hq2 : quoteJSONString "selections" = "\"selections\"" := by decide
  have hq3 : quoteJSONString "timestamp" = "\"timestamp\"" := by decide
  have hk : ∀ ks : List String, ks.Perm ["election_id", "timestamp", "selections"] →
      propertyList (sortKeys ks) = ["election_id", "selections", "timestamp"] := by
    intro ks hks
    rcases perm_three hks with h | h | h | h | h | h <;> subst h <;> decide
  have hkeys : propertyList (sortKeys (objectKeys o)) =
      ["election_id", "selections", "timestamp"] := by
    apply hk
    have := h.map Prod.fst
    simpa [objectKeys, VotePayload.toJS] using this
  rw [payloadString_toJS]
  unfold payloadString jsonStringify
  rw [Option.map_some', hkeys]
  rcases perm_three h with h | h | h | h | h | h <;> subst h <;>
    simp only [serializeJSONProperty, serializeProps, serializeItems_entries] <;>
    simp [serializeMembers, lookupSerialized, String.intercalate, String.intercalate.go,
      hq1, hq2, hq3] <;>
    (apply String.ext; simp [String.data_append])

/-- C11: two Selection Sets holding the same entries in different insertion
orders give, with the same election id and timestamp, payloads with the same
`createPayloadHash` digest, whatever the digest primitive. -/
theorem createPayloadHash_selection_order (sha256 : List Nat → List Nat)
    (now electionId : String) (s1 s2 : Selections) (hperm : s1.Perm s2) :
    createPayloadHash sha256 (createVotePayload now s1 electionId).toJS =
      createPayloadHash sha256 (createVotePayload now s2 electionId).toJS := by
  simp [createPayloadHash, payloadString_toJS, createVotePayload, hperm.length_eq]

/-- C12: two payload objects holding the `election_id`, `timestamp` and
`selections` of one vote payload, with their fields written in any two orders,
have the same digest: both are serialized with the keys in the order
`election_id`, `selections`, `timestamp`. -/
theorem createPayloadHash_key_order (sha256 : List Nat → List Nat) (p : VotePayload)
    (o1 o2 : JSObject) (h1 : o1.Perm p.toJS) (h2 : o2.Perm p.toJS) :
    createPayloadHash sha256 o1 = createPayloadHash sha256 o2 ∧
      payloadString o1 = payloadString o2 ∧
      propertyList (sortKeys (objectKeys o1)) = ["election_id", "selections", "timestamp"] ∧
      propertyList (sortKeys (objectKeys o2)) =
        ["election_id", "selections", "timestamp"] := by
  have hk : ∀ o : JSObject, o.Perm p.toJS →
      propertyList (sortKeys (objectKeys o)) = ["election_id", "selections", "timestamp"] := by
    intro o ho
    have hks : (objectKeys o).Perm ["election_id", "timestamp", "selections"] := by
      have := ho.map Prod.fst
      simpa [objectKeys, VotePayload.toJS] using this
    rcases perm_three hks with h | h | h | h | h | h <;> rw [h] <;> decide
  refine ⟨?_, ?_, hk o1 h1, hk o2 h2⟩
  · simp [createPayloadHash, payloadString_perm p o1 h1, payloadString_perm p o2 h2]
  · rw [payloadString_perm p o1 h1, payloadString_perm p o2 h2]

/-- C14: `createVotePayload(S, E)` has `election_id = E` and the timestamp of
the clock; its `selections` list has one entry per entry of `S`, in the
enumeration order of `S`, each with `candidate_id = S[position]`, and the
positions are pairwise distinct (the keys of the object `S` are). -/
theorem createVotePayload_entries (now : String) (selections : Selections)
    (electionId : String) (hkeys : (selections.map Prod.fst).Nodup) :
    (createVotePayload now selections electionId).election_id = electionId ∧
      (createVotePayload now selections electionId).timestamp = now ∧
      (createVotePayload now selections electionId).selections.length = selections.length ∧
      (createVotePayload now selections electionId).selections.map
          (fun e => (e.position, e.candidate_id)) = selections ∧
      ((createVotePayload now selections electionId).selections.map
          fun e => e.position).Nodup ∧
      ∀ e ∈ (createVotePayload now selections electionId).selections,
        getProp e.position selections = some e.candidate_id := by
  have hid : ((fun e : SelectionEntry => (e.position, e.candidate_id)) ∘
      fun e : String × String => ({ position := e.1, candidate_id := e.2 } : SelectionEntry)) =
      id := by
    funext e
    rfl
  refine ⟨rfl, rfl, by simp [createVotePayload], by simp [createVotePayload, hid], ?_, ?_⟩
  · simpa [createVotePayload, List.map_map, Function.comp_def] using hkeys
  · intro e he
    simp only [createVotePayload, List.mem_map] at he
    obtain ⟨⟨k, v⟩, hmem, rfl⟩ := he
    simp only
    induction selections with
    | nil => simp at hmem
    | cons x xs ih =>
      obtain ⟨k2, v2⟩ := x
      simp only [List.map_cons, List.nodup_cons] at hkeys
      rcases List.mem_cons.mp hmem with heq | hin
      · cases heq
        simp [getProp]
      · have hne : k2 ≠ k := by
          intro hk
          apply hkeys.1
          rw [hk]
          exact List.mem_map_of_mem Prod.fst hin
        simp [getProp, hne, ih hkeys.2 hin]

end ElectZone

namespace ElectZone

set_option maxRecDepth 100000 in
theorem byteHex_eq (b : Nat) (hb : b < 256) :
    byteHex b = [Nat.digitChar (b / 16), Nat.digitChar (b % 16)] ∧
      isLowerHexDigit (Nat.digitChar (b / 16)) = true ∧
      isLowerHexDigit (Nat.digitChar (b % 16)) = true := by
  revert b
  decide

theorem flatMap_byteHex (bytes : List Nat) (hbytes : ∀ b ∈ bytes, b < 256) :
    bytes.flatMap byteHex =
        bytes.flatMap (fun b => [Nat.digitChar (b / 16), Nat.digitChar (b % 16)]) ∧
      (bytes.flatMap byteHex).length = 2 * bytes.length ∧
      ∀ c ∈ bytes.flatMap byteHex, isLowerHexDigit c = true := by
  induction bytes with
  | nil => simp
  | cons b bs ih =>
    have hb := byteHex_eq b (hbytes b (List.mem_cons_self _ _))
    have ih := ih fun x hx => hbytes x (List.mem_cons_of_mem _ hx)
    refine ⟨?_, ?_, ?_⟩
    · simp only [List.flatMap_cons, hb.1, ih.1]
    · simp only [List.flatMap_cons, List.length_append, ih.2.1, hb.1, List.length_cons,
        List.length_nil]
      omega
    · intro c hc
      simp only [List.flatMap_cons, List.mem_append, hb.1, List.mem_cons,
        List.mem_nil_iff, or_false] at hc
      rcases hc with (h | h) | h
      · rw [h]; exact hb.2.1
      · rw [h]; exact hb.2.2
      · exact ih.2.2 c h

/-- C16: when the digest primitive returns 32 bytes (values below 256) for
every input, `hashString` returns for every text exactly 64 characters, each
one of `0`-`9`, `a`-`f`: the two hex digits (high, low) of each digest byte in
order; hence so does `createPayloadHash` for every payload. -/
theorem hashString_hex (sha256 : List Nat → List Nat)
    (hlen : ∀ bytes, (sha256 bytes).length = 32)
    (hbyte : ∀ bytes, ∀ b ∈ sha256 bytes, b < 256) :
    (∀ text : String,
        (hashString sha256 text).length = 64 ∧
          (∀ c ∈ (hashString sha256 text).data, isLowerHexDigit c = true) ∧
          (hashString sha256 text).data =
            (sha256 (textEncode text)).flatMap
              fun b => [Nat.digitChar (b / 16), Nat.digitChar (b % 16)]) ∧
      ∀ payload : JSObject,
        (createPayloadHash sha256 payload).length = 64 ∧
          ∀ c ∈ (createPayloadHash sha256 payload).data, isLowerHexDigit c = true := by
  have key : ∀ text : String,
      (hashString sha256 text).length = 64 ∧
        (∀ c ∈ (hashString sha256 text).data, isLowerHexDigit c = true) ∧
        (hashString sha256 text).data =
          (sha256 (textEncode text)).flatMap
            fun b => [Nat.digitChar (b / 16), Nat.digitChar (b % 16)] := by
    intro text
    have h := flatMap_byteHex (sha256 (textEncode text)) (hbyte _)
    refine ⟨?_, ?_, ?_⟩
    · simp only [hashString, String.length, h.2.1, hlen]
    · simpa only [hashString] using h.2.2
    · simpa only [hashString] using h.1
  exact ⟨key, fun payload => ⟨(key _).1, (key _).2.1⟩⟩

end ElectZone

/-! ## Order of requests, failures and retries (`Review.jsx`) -/

namespace ElectZone

section Sequence

variable {σ : Type}

/-- One run of `handleSubmitVote` sends the status lookup, then at most one
insert, then at most one mark, each on the store state the previous request
left: the requests are the lookup alone (one alert), or lookup and a failed
insert (one alert), or lookup, a successful insert and the mark (no alert and
`/thank-you` when the mark succeeds, one alert when it fails).  No request is
sent twice. -/
theorem handleSubmitVote_requests (sb : Supabase σ) (pf : Platform) (voter : Voter)
    (selections : Selections) (w : World σ) :
    ((handleSubmitVote sb pf voter selections w).calls =
          w.calls ++ [.selectVotingStatus voter.student_id] ∧
        (handleSubmitVote sb pf voter selections w).db =
          (sb.selectVotingStatus voter.student_id w.db).2 ∧
        ∃ msg, (handleSubmitVote sb pf voter selections w).alerts = w.alerts ++ [msg]) ∨
      (∃ row,
        (handleSubmitVote sb pf voter selections w).calls =
            w.calls ++ [.selectVotingStatus voter.student_id, .insertVote row] ∧
          (sb.insertVote row (sb.selectVotingStatus voter.student_id w.db).2).1 ≠ .ok none ∧
          (handleSubmitVote sb pf voter selections w).db =
            (sb.insertVote row (sb.selectVotingStatus voter.student_id w.db).2).2 ∧
          ∃ msg, (handleSubmitVote sb pf voter selections w).alerts = w.alerts ++ [msg]) ∨
      ∃ row,
        (handleSubmitVote sb pf voter selections w).calls =
            w.calls ++
              [.selectVotingStatus voter.student_id, .insertVote row,
               .rpcMarkVoterAsVoted voter.student_id] ∧
          (sb.insertVote row (sb.selectVotingStatus voter.student_id w.db).2).1 = .ok none ∧
          (handleSubmitVote sb pf voter selections w).db =
            (sb.rpcMarkVoterAsVoted voter.student_id
              (sb.insertVote row (sb.selectVotingStatus voter.student_id w.db).2).2).2 ∧
          (((sb.rpcMarkVoterAsVoted voter.student_id
                (sb.insertVote row (sb.selectVotingStatus voter.student_id w.db).2).2).1 =
                .ok none ∧
              (handleSubmitVote sb pf voter selections w).alerts = w.alerts ∧
              (handleSubmitVote sb pf voter selections w).navigations =
                w.navigations ++ ["/thank-you"]) ∨
            ((sb.rpcMarkVoterAsVoted voter.student_id
                (sb.insertVote row (sb.selectVotingStatus voter.student_id w.db).2).2).1 ≠
                .ok none ∧
              ∃ msg,
                (handleSubmitVote sb pf voter selections w).alerts = w.alerts ++ [msg])) := by
  rcases hres : (sb.selectVotingStatus voter.student_id w.db).1 with err | reply
  · left
    simp [handleSubmitVote, handleSubmitVoteTry, authService.checkVotingStatus, World.request,
      World.setSubmitting, World.setShowConfirm, World.alert, hres]
  · cases hv : alreadyVoted reply.data
    · by_cases hcount : selections.length = 10
      · cases hel : w.review.election with
        | none =>
          left
          simp [handleSubmitVote, handleSubmitVoteTry, authService.checkVotingStatus,
            World.request, World.setSubmitting, World.setShowConfirm, World.alert, hres, hv,
            hcount, hel]
        | some el =>
          right
          have hlen : (createVotePayload pf.now selections el.id).selections.length = 10 := by
            simp [createVotePayload, hcount]
          rcases hins : (sb.insertVote
              { election_id := el.id, vote_token := pf.randomUUID
                payload := (createVotePayload pf.now selections el.id).toJS
                payload_hash :=
                  createPayloadHash pf.sha256
                    (createVotePayload pf.now selections el.id).toJS }
              (sb.selectVotingStatus voter.student_id w.db).2).1 with e | (_ | e)
          · left
            refine ⟨⟨el.id, pf.randomUUID, (createVotePayload pf.now selections el.id).toJS,
              createPayloadHash pf.sha256 (createVotePayload pf.now selections el.id).toJS⟩,
              ?_, ?_, ?_, ?_⟩
            rotate_left
            · rw [hins]; simp
            all_goals
              simp [handleSubmitVote, handleSubmitVoteTry, authService.checkVotingStatus,
                World.request, World.setSubmitting, World.setShowConfirm, World.alert,
                World.navigate, hres, hv, hcount, hel, hlen, generateVoteToken,
                votingService.completeVoting, votingService.submitVote, hins]
          · right
            refine ⟨⟨el.id, pf.randomUUID, (createVotePayload pf.now selections el.id).toJS,
              createPayloadHash pf.sha256 (createVotePayload pf.now selections el.id).toJS⟩,
              ?_, hins, ?_, ?_⟩
            rotate_left 2
            · rcases hmark : (sb.rpcMarkVoterAsVoted voter.student_id
                  (sb.insertVote
                    { election_id := el.id, vote_token := pf.randomUUID
                      payload := (createVotePayload pf.now selections el.id).toJS
                      payload_hash :=
                        createPayloadHash pf.sha256
                          (createVotePayload pf.now selections el.id).toJS }
                    (sb.selectVotingStatus voter.student_id w.db).2).2).1 with e | (_ | e)
              · right
                simp [handleSubmitVote, handleSubmitVoteTry, authService.checkVotingStatus,
                  World.request, World.setSubmitting, World.setShowConfirm, World.alert,
                  World.navigate, hres, hv, hcount, hel, hlen, generateVoteToken,
                  votingService.completeVoting, votingService.submitVote,
                  votingService.markVoterAsVoted, hins, hmark]
              · left
                simp [handleSubmitVote, handleSubmitVoteTry, authService.checkVotingStatus,
                  World.request, World.setSubmitting, World.setShowConfirm, World.alert,
                  World.navigate, hres, hv, hcount, hel, hlen, generateVoteToken,
                  votingService.completeVoting, votingService.submitVote,
                  votingService.markVoterAsVoted, hins, hmark]
              · right
                simp [handleSubmitVote, handleSubmitVoteTry, authService.checkVotingStatus,
                  World.request, World.setSubmitting, World.setShowConfirm, World.alert,
                  World.navigate, hres, hv, hcount, hel, hlen, generateVoteToken,
                  votingService.completeVoting, votingService.submitVote,
                  votingService.markVoterAsVoted, hins, hmark]
            all_goals
              rcases hmark : (sb.rpcMarkVoterAsVoted voter.student_id
                  (sb.insertVote
                    { election_id := el.id, vote_token := pf.randomUUID
                      payload := (createVotePayload pf.now selections el.id).toJS
                      payload_hash :=
                        createPayloadHash pf.sha256
                          (createVotePayload pf.now selections el.id).toJS }
                    (sb.selectVotingStatus voter.student_id w.db).2).2).1 with e | (_ | e) <;>
                simp [handleSubmitVote, handleSubmitVoteTry, authService.checkVotingStatus,
                  World.request, World.setSubmitting, World.setShowConfirm, World.alert,
                  World.navigate, hres, hv, hcount, hel, hlen, generateVoteToken,
                  votingService.completeVoting, votingService.submitVote,
                  votingService.markVoterAsVoted, hins, hmark]
          · left
            refine ⟨⟨el.id, pf.randomUUID, (createVotePayload pf.now selections el.id).toJS,
              createPayloadHash pf.sha256 (createVotePayload pf.now selections el.id).toJS⟩,
              ?_, ?_, ?_, ?_⟩
            rotate_left
            · rw [hins]; simp
            all_goals
              simp [handleSubmitVote, handleSubmitVoteTry, authService.checkVotingStatus,
                World.request, World.setSubmitting, World.setShowConfirm, World.alert,
                World.navigate, hres, hv, hcount, hel, hlen, generateVoteToken,
                votingService.completeVoting, votingService.submitVote, hins]
      · left
        simp [handleSubmitVote, handleSubmitVoteTry, authService.checkVotingStatus,
          World.request, World.setSubmitting, World.setShowConfirm, World.alert,
          World.navigate, hres, hv, hcount]
    · left
      simp [handleSubmitVote, handleSubmitVoteTry, authService.checkVotingStatus,
        World.request, World.setSubmitting, World.setShowConfirm, World.alert,
        World.navigate, hres, hv]

/-- C17 (amended): one run of `handleSubmitVote` sends the status lookup, then
at most one insert, then at most one mark, each on the store state the previous
request left, and no request twice.  A rejected lookup, a failed insert and a
failed mark are each reported by exactly one alert and end the run.  A lookup
that resolves without a row is not reported, whatever error it carries: with
ten selections, the election loaded and a store on which the insert and the
mark succeed, the run sends all three requests, shows no alert and navigates to
`/thank-you`. -/
theorem handleSubmitVote_call_sequence (sb : Supabase σ) (pf : Platform) (voter : Voter)
    (selections : Selections) (w : World σ) :
    (((handleSubmitVote sb pf voter selections w).calls =
            w.calls ++ [.selectVotingStatus voter.student_id] ∧
          (handleSubmitVote sb pf voter selections w).db =
            (sb.selectVotingStatus voter.student_id w.db).2 ∧
          ∃ msg, (handleSubmitVote sb pf voter selections w).alerts = w.alerts ++ [msg]) ∨
        (∃ row,
          (handleSubmitVote sb pf voter selections w).calls =
              w.calls ++ [.selectVotingStatus voter.student_id, .insertVote row] ∧
            (sb.insertVote row (sb.selectVotingStatus voter.student_id w.db).2).1 ≠ .ok none ∧
            (handleSubmitVote sb pf voter selections w).db =
              (sb.insertVote row (sb.selectVotingStatus voter.student_id w.db).2).2 ∧
            ∃ msg, (handleSubmitVote sb pf voter selections w).alerts = w.alerts ++ [msg]) ∨
        ∃ row,
          (handleSubmitVote sb pf voter selections w).calls =
              w.calls ++
                [.selectVotingStatus voter.student_id, .insertVote row,
                 .rpcMarkVoterAsVoted voter.student_id] ∧
            (sb.insertVote row (sb.selectVotingStatus voter.student_id w.db).2).1 = .ok none ∧
            (handleSubmitVote sb pf voter selections w).db =
              (sb.rpcMarkVoterAsVoted voter.student_id
                (sb.insertVote row (sb.selectVotingStatus voter.student_id w.db).2).2).2 ∧
            (((sb.rpcMarkVoterAsVoted voter.student_id
                  (sb.insertVote row (sb.selectVotingStatus voter.student_id w.db).2).2).1 =
                  .ok none ∧
                (handleSubmitVote sb pf voter selections w).alerts = w.alerts ∧
                (handleSubmitVote sb pf voter selections w).navigations =
                  w.navigations ++ ["/thank-you"]) ∨
              ((sb.rpcMarkVoterAsVoted voter.student_id
                  (sb.insertVote row (sb.selectVotingStatus voter.student_id w.db).2).2).1 ≠
                  .ok none ∧
                ∃ msg,
                  (handleSubmitVote sb pf voter selections w).alerts = w.alerts ++ [msg]))) ∧
      (∀ err, (sb.selectVotingStatus voter.student_id w.db).1 = .error err →
        (handleSubmitVote sb pf voter selections w).calls =
            w.calls ++ [.selectVotingStatus voter.student_id] ∧
          (handleSubmitVote sb pf voter selections w).alerts =
            w.alerts ++ ["Error submitting vote: " ++ err.messageText] ∧
          (handleSubmitVote sb pf voter selections w).navigations = w.navigations) ∧
      ∀ reply el,
        (sb.selectVotingStatus voter.student_id w.db).1 = .ok reply →
        reply.data = none →
        selections.length = 10 →
        w.review.election = some el →
        (sb.insertVote
            { election_id := el.id, vote_token := pf.randomUUID
              payload := (createVotePayload pf.now selections el.id).toJS
              payload_hash :=
                createPayloadHash pf.sha256
                  (createVotePayload pf.now selections el.id).toJS }
            (sb.selectVotingStatus voter.student_id w.db).2).1 = .ok none →
        (sb.rpcMarkVoterAsVoted voter.student_id
            (sb.insertVote
              { election_id := el.id, vote_token := pf.randomUUID
                payload := (createVotePayload pf.now selections el.id).toJS
                payload_hash :=
                  createPayloadHash pf.sha256
                    (createVotePayload pf.now selections el.id).toJS }
              (sb.selectVotingStatus voter.student_id w.db).2).2).1 = .ok none →
        (handleSubmitVote sb pf voter selections w).calls =
            w.calls ++
              [.selectVotingStatus voter.student_id,
               .insertVote
                { election_id := el.id, vote_token := pf.randomUUID
                  payload := (createVotePayload pf.now selections el.id).toJS
                  payload_hash :=
                    createPayloadHash pf.sha256
                      (createVotePayload pf.now selections el.id).toJS },
               .rpcMarkVoterAsVoted voter.student_id] ∧
          (handleSubmitVote sb pf voter selections w).alerts = w.alerts ∧
          (handleSubmitVote sb pf voter selections w).navigations =
            w.navigations ++ ["/thank-you"] := by
  refine ⟨handleSubmitVote_requests sb pf voter selections w, ?_, ?_⟩
  · intro err hres
    simp [handleSubmitVote, handleSubmitVoteTry, authService.checkVotingStatus, World.request,
      World.setSubmitting, World.setShowConfirm, World.alert, hres]
  · intro reply el hres hnone hcount hel hins hmark
    have hlen : (createVotePayload pf.now selections el.id).selections.length = 10 := by
      simp [createVotePayload, hcount]
    simp [handleSubmitVote, handleSubmitVoteTry, authService.checkVotingStatus,
      World.request, World.setSubmitting, World.setShowConfirm, World.alert,
      World.navigate, hres, hnone, alreadyVoted, hcount, hel, hlen, generateVoteToken,
      votingService.completeVoting, votingService.submitVote,
      votingService.markVoterAsVoted, hins, hmark]

end Sequence

end ElectZone

/-! ## Failure, resubmission and the session (`Review.jsx`, `App.jsx`) -/

namespace ElectZone

section Failure

variable {σ : Type}

/-- When the `try` block of `handleSubmitVote` throws, it has shown no alert,
navigated nowhere and left the component state alone. -/
theorem handleSubmitVoteTry_error_frame (sb : Supabase σ) (pf : Platform) (voter : Voter)
    (selections : Selections) (w : World σ) (err : JSError)
    (hfail : (handleSubmitVoteTry sb pf voter selections w).1 = .error err) :
    (handleSubmitVoteTry sb pf voter selections w).2.alerts = w.alerts ∧
      (handleSubmitVoteTry sb pf voter selections w).2.navigations = w.navigations ∧
      (handleSubmitVoteTry sb pf voter selections w).2.review = w.review := by
  rcases hres : (sb.selectVotingStatus voter.student_id w.db).1 with e | reply
  · simp [handleSubmitVoteTry, authService.checkVotingStatus, World.request, hres]
  · cases hv : alreadyVoted reply.data
    · by_cases hcount : selections.length = 10
      · cases hel : w.review.election with
        | none =>
          simp [handleSubmitVoteTry, authService.checkVotingStatus, World.request, hres, hv,
            hcount, hel]
        | some el =>
          have hlen : (createVotePayload pf.now selections el.id).selections.length = 10 := by
            simp [createVotePayload, hcount]
          simp only [handleSubmitVoteTry, authService.checkVotingStatus, World.request, hres,
            hv, hcount, hel, hlen, generateVoteToken, List.length_map] at hfail ⊢
          simp only [ne_eq, not_true_eq_false, if_false, Bool.false_eq_true] at hfail ⊢
          split
          · exact ⟨(completeVoting_calls sb _ _ _ _ _ _).2.1,
              (completeVoting_calls sb _ _ _ _ _ _).2.2.1,
              (completeVoting_calls sb _ _ _ _ _ _).2.2.2⟩
          · rename_i hok
            rw [if_neg hok] at hfail
            simp at hfail
      · simp [handleSubmitVoteTry, authService.checkVotingStatus, World.request, hres, hv,
          hcount] at hfail
    · simp [handleSubmitVoteTry, authService.checkVotingStatus, World.request, hres, hv]
        at hfail

/-- C15: when `handleSubmitVote` ends in a submission failure, that is its
`try` block throws `err` (a request rejected, `completeVoting` reported
`success = false` or an error, or `election` was still `null`), the state of
`App`, the Selection Set with it, is what it was, nothing is navigated, the
alert `'Error submitting vote: '` followed by `err.message` is shown once, and
the `Review` state differs only in `submitting = false` and the confirm dialog
closed at the start of the handler. -/
theorem reviewHandleSubmitVote_failure (sb : Supabase σ) (pf : Platform) (c : Client σ)
    (voter : Voter) (err : JSError)
    (hvoter : c.app.voter = some voter) (hguard : voter.has_voted = false)
    (hfail :
      (handleSubmitVoteTry sb pf voter c.app.selections
        ((c.world.setSubmitting true).setShowConfirm false)).1 = .error err) :
    (App.reviewHandleSubmitVote sb pf c).app = c.app ∧
      (App.reviewHandleSubmitVote sb pf c).app.selections = c.app.selections ∧
      (App.reviewHandleSubmitVote sb pf c).world.navigations = c.world.navigations ∧
      (App.reviewHandleSubmitVote sb pf c).world.alerts =
        c.world.alerts ++ ["Error submitting vote: " ++ err.messageText] ∧
      (App.reviewHandleSubmitVote sb pf c).world.review =
        { c.world.review with submitting := false, showConfirm := false } := by
  obtain ⟨ha, hn, hr⟩ := handleSubmitVoteTry_error_frame sb pf voter c.app.selections
    ((c.world.setSubmitting true).setShowConfirm false) err hfail
  have happ : App.reviewHandleSubmitVote sb pf c =
      { c with world := handleSubmitVote sb pf voter c.app.selections c.world } := by
    simp [App.reviewHandleSubmitVote, hvoter, App.voterMayVote, hguard]
  rw [happ]
  unfold handleSubmitVote
  generalize handleSubmitVoteTry sb pf voter c.app.selections
    ((c.world.setSubmitting true).setShowConfirm false) = T at hfail ha hn hr
  obtain ⟨r, w2⟩ := T
  simp only at hfail ha hn hr
  subst hfail
  simp [World.alert, World.setSubmitting, World.setShowConfirm, ha, hn, hr]

/-- C19 (amended): when the gate of `handleSubmitVote` finds `has_voted = true`,
the voter is told and sent to `/ballot`, a location the route guard of `App`
still admits because the state of `App` (whose voter object dates from the
login) is not changed; the handler returns after its one lookup, without
resetting the Selection Set and without any other request. -/
theorem reviewHandleSubmitVote_already_voted (sb : Supabase σ) (pf : Platform)
    (c : Client σ) (voter : Voter) (reply : Response VotingStatus) (row : VotingStatus)
    (db1 : σ)
    (hvoter : c.app.voter = some voter) (hguard : voter.has_voted = false)
    (hlookup : sb.selectVotingStatus voter.student_id c.world.db = (.ok reply, db1))
    (hrow : reply.data = some row) (hvoted : row.has_voted = true) :
    (App.reviewHandleSubmitVote sb pf c).world.navigations =
        c.world.navigations ++ ["/ballot"] ∧
      App.route (App.reviewHandleSubmitVote sb pf c).app "/ballot" = "/ballot" ∧
      (App.reviewHandleSubmitVote sb pf c).app = c.app ∧
      (App.reviewHandleSubmitVote sb pf c).world.alerts =
        c.world.alerts ++ ["You have already voted. Cannot submit another vote."] ∧
      (App.reviewHandleSubmitVote sb pf c).world.calls =
        c.world.calls ++ [.selectVotingStatus voter.student_id] := by
  simp [App.reviewHandleSubmitVote, hvoter, App.voterMayVote, hguard, App.route,
    ProtectedRoute, handleSubmitVote, handleSubmitVoteTry, authService.checkVotingStatus,
    World.request, World.setSubmitting, World.setShowConfirm, World.alert, World.navigate,
    hlookup, hrow, alreadyVoted, hvoted]

theorem getProp_removeItem (key k : String) (storage : List (String × String)) :
    getProp k (removeItem key storage) = if k = key then none else getProp k storage := by
  induction storage with
  | nil => simp [removeItem, getProp]
  | cons entry rest ih =>
    obtain ⟨k2, v⟩ := entry
    have hstep : removeItem key ((k2, v) :: rest) =
        if k2 = key then removeItem key rest else (k2, v) :: removeItem key rest := by
      by_cases h : k2 = key <;> simp [removeItem, List.filter_cons, h]
    rw [hstep]
    by_cases h2 : k2 = key
    · rw [if_pos h2, ih]
      by_cases hk : k = key
      · simp [hk]
      · have hne : k2 ≠ k := fun h => hk (h.symm.trans h2)
        simp [hk, getProp, hne]
    · rw [if_neg h2]
      simp only [getProp, ih]
      by_cases h3 : k2 = k
      · have hne : k ≠ key := fun h => h2 (h3.trans h)
        simp [h3, hne]
      · simp [h3]

/-- C20 (amended): `handleLogout` of `App` empties the Selection Set, sets
`voter` and `admin` to `null` and removes the `sessionStorage` entries `voter`
and `admin` (other entries stay); `handleSubmitVote`, successful or not, leaves
the state of `App`, so the Selection Set, as it was; the Selection Set is
emptied when the `ThankYou` page runs its `handleLogout`, which calls the one of
`App` and navigates to `/`. -/
theorem selections_discarded_at_logout :
    (∀ app : AppState,
        (App.handleLogout app).selections = [] ∧
          (App.handleLogout app).voter = none ∧
          (App.handleLogout app).admin = none ∧
          getProp "voter" (App.handleLogout app).sessionStorage = none ∧
          getProp "admin" (App.handleLogout app).sessionStorage = none ∧
          ∀ k, k ≠ "voter" → k ≠ "admin" →
            getProp k (App.handleLogout app).sessionStorage = getProp k app.sessionStorage) ∧
      (∀ (τ : Type) (sb : Supabase τ) (pf : Platform) (c : Client τ),
        (App.reviewHandleSubmitVote sb pf c).app = c.app) ∧
      ∀ (τ : Type) (c : Client τ),
        (ThankYou.handleLogout c).app.selections = [] ∧
          (ThankYou.handleLogout c).world.navigations = c.world.navigations ++ ["/"] := by
  refine ⟨fun app => ⟨rfl, rfl, rfl, ?_, ?_, ?_⟩, ?_, fun τ c => ⟨rfl, rfl⟩⟩
  · simp [App.handleLogout, getProp_removeItem]
  · simp [App.handleLogout, getProp_removeItem]
  · intro k h1 h2
    simp [App.handleLogout, getProp_removeItem, h1, h2]
  · intro τ sb pf c
    unfold App.reviewHandleSubmitVote
    split
    · split <;> rfl
    · rfl

end Failure

/-! ## The store modelled from the specification -/

theorem Store.alreadyVoted_getVoterStatus (id : String) (s : Store) :
    alreadyVoted (Store.getVoterStatus id s).data = Store.hasVoted s id := by
  unfold Store.getVoterStatus Store.hasVoted
  cases s.voters.find? fun v => v.student_id = id <;> rfl

/-- C13: on the store of the specification, after a submission whose insert
succeeded and whose mark failed the store holds the inserted record and the
voter's has-voted flag is still false; a resubmission by the same voter with
the same Selection Set (whether the store error persists or not) passes the
gate and appends a second record. -/
theorem resubmission_after_partial_write (pf1 pf2 : Platform) (voter : Voter)
    (selections : Selections) (w : World Store) (el : Election) (e : JSError)
    (m : Option JSError)
    (hinsert : w.db.insertFault = none) (hmark : w.db.markFault = some e)
    (hnot : Store.hasVoted w.db voter.student_id = false)
    (hcount : selections.length = 10) (hel : w.review.election = some el) :
    (handleSubmitVote Store.backend pf1 voter selections w).db.votes =
        w.db.votes ++
          [{ election_id := el.id, vote_token := pf1.randomUUID
             payload := (createVotePayload pf1.now selections el.id).toJS
             payload_hash :=
               createPayloadHash pf1.sha256
                 (createVotePayload pf1.now selections el.id).toJS }] ∧
      Store.hasVoted (handleSubmitVote Store.backend pf1 voter selections w).db
        voter.student_id = false ∧
      (handleSubmitVote Store.backend pf2 voter selections
          (Store.withMarkFault m
            (handleSubmitVote Store.backend pf1 voter selections w))).db.votes =
        w.db.votes ++
          [{ election_id := el.id, vote_token := pf1.randomUUID
             payload := (createVotePayload pf1.now selections el.id).toJS
             payload_hash :=
               createPayloadHash pf1.sha256
                 (createVotePayload pf1.now selections el.id).toJS },
           { election_id := el.id, vote_token := pf2.randomUUID
             payload := (createVotePayload pf2.now selections el.id).toJS
             payload_hash :=
               createPayloadHash pf2.sha256
                 (createVotePayload pf2.now selections el.id).toJS }] := by
  have hgate := Store.alreadyVoted_getVoterStatus voter.student_id w.db
  rw [hnot] at hgate
  have hlen1 : (createVotePayload pf1.now selections el.id).selections.length = 10 := by
    simp [createVotePayload, hcount]
  have hlen2 : (createVotePayload pf2.now selections el.id).selections.length = 10 := by
    simp [createVotePayload, hcount]
  have hrun1 : handleSubmitVote Store.backend pf1 voter selections w =
      { db :=
          { w.db with
            votes := w.db.votes ++
              [{ election_id := el.id, vote_token := pf1.randomUUID
                 payload := (createVotePayload pf1.now selections el.id).toJS
                 payload_hash :=
                   createPayloadHash pf1.sha256
                     (createVotePayload pf1.now selections el.id).toJS }] }
        calls := w.calls ++
          [.selectVotingStatus voter.student_id,
           .insertVote
             { election_id := el.id, vote_token := pf1.randomUUID
               payload := (createVotePayload pf1.now selections el.id).toJS
               payload_hash :=
                 createPayloadHash pf1.sha256
                   (createVotePayload pf1.now selections el.id).toJS },
           .rpcMarkVoterAsVoted voter.student_id]
        alerts := w.alerts ++ ["Error submitting vote: " ++ submitErrorMessage (some e)]
        navigations := w.navigations
        review := { w.review with submitting := false, showConfirm := false } } := by
    simp [handleSubmitVote, handleSubmitVoteTry, authService.checkVotingStatus,
      World.request, World.setSubmitting, World.setShowConfirm, World.alert,
      World.navigate, Store.backend, hgate, hcount, hel, hlen1, generateVoteToken,
      votingService.completeVoting, votingService.submitVote,
      votingService.markVoterAsVoted, Store.insertVoteRecord, Store.setVoterVoted, hinsert,
      hmark, JSError.messageText]
  rw [hrun1]
  refine ⟨rfl, hnot, ?_⟩
  have hnot2 := hnot
  simp only [Store.hasVoted] at hnot2
  cases m with
  | none =>
    simp [handleSubmitVote, handleSubmitVoteTry, authService.checkVotingStatus,
      World.request, World.setSubmitting, World.setShowConfirm, World.alert,
      World.navigate, Store.backend, Store.withMarkFault, hcount, hel, hlen2,
      generateVoteToken, votingService.completeVoting, votingService.submitVote,
      votingService.markVoterAsVoted, Store.insertVoteRecord, Store.setVoterVoted, hinsert,
      Store.alreadyVoted_getVoterStatus, Store.hasVoted, hnot2]
  | some e2 =>
    simp [handleSubmitVote, handleSubmitVoteTry, authService.checkVotingStatus,
      World.request, World.setSubmitting, World.setShowConfirm, World.alert,
      World.navigate, Store.backend, Store.withMarkFault, hcount, hel, hlen2,
      generateVoteToken, votingService.completeVoting, votingService.submitVote,
      votingService.markVoterAsVoted, Store.insertVoteRecord, Store.setVoterVoted, hinsert,
      Store.alreadyVoted_getVoterStatus, Store.hasVoted, hnot2]

theorem Store.find_map_other (studentId other : String) (hother : other ≠ studentId)
    (vs : List VoterRow) :
    ((vs.map fun v =>
          if v.student_id = studentId then { v with has_voted := true } else v).find?
        fun v => v.student_id = other).map (fun v => v.has_voted) =
      (vs.find? fun v => v.student_id = other).map fun v => v.has_voted := by
  induction vs with
  | nil => rfl
  | cons v vs ih =>
    by_cases hv : v.student_id = studentId
    · have hne : ¬ v.student_id = other := fun h => hother (h.symm.trans hv)
      rw [List.map_cons, if_pos hv, List.find?_cons, List.find?_cons]
      simp only [hne, decide_False]
      exact ih
    · rw [List.map_cons, if_neg hv, List.find?_cons, List.find?_cons]
      by_cases ho : v.student_id = other
      · simp only [ho, decide_True]
      · simp only [ho, decide_False]
        exact ih

theorem Store.hasVoted_eq (s : Store) (id : String) :
    Store.hasVoted s id =
      ((s.voters.find? fun v => v.student_id = id).map fun v => v.has_voted).getD false := by
  unfold Store.hasVoted
  cases s.voters.find? fun v => v.student_id = id <;> rfl

theorem Store.hasVoted_setVoterVoted_other (studentId other : String)
    (hother : other ≠ studentId) (s : Store) :
    Store.hasVoted (Store.setVoterVoted studentId s).2 other = Store.hasVoted s other := by
  cases hm : s.markFault with
  | some e => simp [Store.setVoterVoted, hm]
  | none =>
    have hvs : (Store.setVoterVoted studentId s).2.voters =
        s.voters.map fun v =>
          if v.student_id = studentId then { v with has_voted := true } else v := by
      simp [Store.setVoterVoted, hm]
    rw [Store.hasVoted_eq, Store.hasVoted_eq, hvs, Store.find_map_other studentId other hother]

/-- C18: on the store of the specification, `markVoterAsVoted` called twice
for one student id leaves the store exactly as calling it once does; when the
update succeeds that state has `has_voted = true` for every row of that id and
every other voter and every vote as before. -/
theorem markVoterAsVoted_idempotent (studentId : String) (w : World Store) :
    (votingService.markVoterAsVoted Store.backend studentId
        (votingService.markVoterAsVoted Store.backend studentId w).2).2.db =
        (votingService.markVoterAsVoted Store.backend studentId w).2.db ∧
      (w.db.markFault = none →
        (∀ v ∈ (votingService.markVoterAsVoted Store.backend studentId w).2.db.voters,
            v.student_id = studentId → v.has_voted = true) ∧
          (∀ other, other ≠ studentId →
            Store.hasVoted (votingService.markVoterAsVoted Store.backend studentId w).2.db
              other = Store.hasVoted w.db other) ∧
          (votingService.markVoterAsVoted Store.backend studentId w).2.db.voters.map
              (fun v => (v.student_id, v.name, v.is_active)) =
            w.db.voters.map (fun v => (v.student_id, v.name, v.is_active)) ∧
          (votingService.markVoterAsVoted Store.backend studentId w).2.db.votes =
            w.db.votes) := by
  cases hm : w.db.markFault with
  | some e =>
    simp [votingService.markVoterAsVoted, World.request, Store.backend, Store.setVoterVoted,
      hm]
  | none =>
    have hmap : ∀ vs : List VoterRow,
        (vs.map fun v => if v.student_id = studentId then { v with has_voted := true } else v).map
            (fun v => if v.student_id = studentId then { v with has_voted := true } else v) =
          vs.map fun v => if v.student_id = studentId then { v with has_voted := true } else v := by
      intro vs
      rw [List.map_map]
      apply List.map_congr_left
      intro v _
      by_cases h : v.student_id = studentId <;> simp [h]
    refine ⟨?_, fun _ => ⟨?_, ?_, ?_, ?_⟩⟩
    · simp [votingService.markVoterAsVoted, World.request, Store.backend,
        Store.setVoterVoted, hm, hmap]
    · intro v hv hid
      simp only [votingService.markVoterAsVoted, World.request, Store.backend,
        Store.setVoterVoted, hm, List.mem_map] at hv
      obtain ⟨v0, _, rfl⟩ := hv
      by_cases h : v0.student_id = studentId
      · simp [h]
      · simp [h] at hid
    · intro other hother
      exact Store.hasVoted_setVoterVoted_other studentId other hother w.db
    · simp only [votingService.markVoterAsVoted, World.request, Store.backend,
        Store.setVoterVoted, hm, List.map_map]
      apply List.map_congr_left
      intro v _
      by_cases h : v.student_id = studentId <;> simp [h]
    · simp [votingService.markVoterAsVoted, World.request, Store.backend,
        Store.setVoterVoted, hm]

end ElectZone

/-! ## Further runs on the sample data -/

namespace ElectZone

open Sample

/-- Witness of C11: the two roster positions selected in either order. -/
theorem createPayloadHash_selection_order_witness :
    twoSelections ≠ twoSelectionsReversed ∧
      createPayloadHash platform.sha256
          (createVotePayload platform.now twoSelections "e1").toJS =
        createPayloadHash platform.sha256
          (createVotePayload platform.now twoSelectionsReversed "e1").toJS :=
  ⟨by decide,
    createPayloadHash_selection_order platform.sha256 platform.now "e1" twoSelections
      twoSelectionsReversed (List.Perm.swap _ _ _)⟩

/-- Witness of C12: the sample payload with its fields in reverse order. -/
theorem createPayloadHash_key_order_witness :
    objectKeys payloadOtherKeyOrder = ["selections", "timestamp", "election_id"] ∧
      createPayloadHash platform.sha256 payloadOtherKeyOrder =
        createPayloadHash platform.sha256 payload.toJS :=
  ⟨rfl,
    (createPayloadHash_key_order platform.sha256 payload payloadOtherKeyOrder payload.toJS
      (List.reverse_perm payload.toJS) (List.Perm.refl _)).1⟩

/-- Witness of C13: Dan submits on the store whose mark fails, the error
clears, and Dan submits again. -/
theorem resubmission_after_partial_write_witness :
    (handleSubmitVote Store.backend platform dan tenSelections
        (loaded storeMarkFails tenSelections)).db.votes = [row] ∧
      Store.hasVoted
        (handleSubmitVote Store.backend platform dan tenSelections
          (loaded storeMarkFails tenSelections)).db "2021001" = false ∧
      (handleSubmitVote Store.backend platformRetry dan tenSelections
        (Store.withMarkFault none
          (handleSubmitVote Store.backend platform dan tenSelections
            (loaded storeMarkFails tenSelections)))).db.votes = [row, rowRetry] :=
  resubmission_after_partial_write platform platformRetry dan tenSelections
    (loaded storeMarkFails tenSelections) election storeError none rfl rfl rfl rfl rfl

/-- Witness of C14: the payload of the ten sample selections. -/
theorem createVotePayload_entries_witness :
    (createVotePayload platform.now tenSelections "e1").selections.length = 10 ∧
      (createVotePayload platform.now tenSelections "e1").selections.map
          (fun e => (e.position, e.candidate_id)) = tenSelections :=
  have h := createVotePayload_entries platform.now tenSelections "e1" (by decide)
  ⟨h.2.2.1, h.2.2.2.1⟩

/-- Witness of C15: Dan submits on the store whose insert fails. -/
theorem reviewHandleSubmitVote_failure_witness :
    (App.reviewHandleSubmitVote Store.backend platform
        (client dan storeInsertFails)).app.selections = tenSelections ∧
      (App.reviewHandleSubmitVote Store.backend platform
        (client dan storeInsertFails)).world.navigations = [] ∧
      (App.reviewHandleSubmitVote Store.backend platform
        (client dan storeInsertFails)).world.alerts =
        ["Error submitting vote: connection lost"] :=
  have h := reviewHandleSubmitVote_failure Store.backend platform
    (client dan storeInsertFails) dan { message := some "connection lost" } rfl rfl rfl
  ⟨h.2.1, h.2.2.1, h.2.2.2.1⟩

/-- Witness of C16: the stand-in digest of 32 bytes. -/
theorem hashString_hex_witness :
    (hashString digest32 "ballot").length = 64 ∧
      (createPayloadHash digest32 payload.toJS).length = 64 :=
  have h := hashString_hex digest32
    (fun bytes => by simp [digest32])
    (fun bytes b hb => by
      simp only [digest32, List.mem_map] at hb
      obtain ⟨i, _, rfl⟩ := hb
      exact Nat.mod_lt _ (by decide))
  ⟨(h.1 "ballot").1, (h.2 payload.toJS).1⟩

/-- Witness of C18: Dan is marked twice on the sample store. -/
theorem markVoterAsVoted_idempotent_witness :
    Store.hasVoted
        (votingService.markVoterAsVoted Store.backend "2021001"
          (votingService.markVoterAsVoted Store.backend "2021001" (mounted store)).2).2.db
        "2021001" = true ∧
      Store.hasVoted
        (votingService.markVoterAsVoted Store.backend "2021001" (mounted store)).2.db
        "2021003" = false :=
  have h := markVoterAsVoted_idempotent "2021001" (mounted store)
  ⟨by rw [h.1]; rfl, by rw [(h.2 rfl).2.1 "2021003" (by decide)]; rfl⟩

/-- C19, counterexample: Eve, logged in before her vote was recorded, submits
from the `Review` page.  The gate finds `has_voted = true` and navigates to
`/ballot`, which the route guard of `App` admits. -/
theorem already_voted_sent_to_ballot :
    (App.reviewHandleSubmitVote Store.backend platform (client eve store)).world.navigations =
        ["/ballot"] ∧
      App.route (App.reviewHandleSubmitVote Store.backend platform (client eve store)).app
        "/ballot" = "/ballot" ∧
      (App.reviewHandleSubmitVote Store.backend platform (client eve store)).world.alerts =
        ["You have already voted. Cannot submit another vote."] := by
  decide

/-- Witness of C19 (amended): Eve on the sample store. -/
theorem reviewHandleSubmitVote_already_voted_witness :
    (App.reviewHandleSubmitVote Store.backend platform (client eve store)).world.navigations =
        (client eve store).world.navigations ++ ["/ballot"] ∧
      (App.reviewHandleSubmitVote Store.backend platform (client eve store)).app =
        (client eve store).app :=
  have h := reviewHandleSubmitVote_already_voted Store.backend platform (client eve store) eve
    (Store.getVoterStatus "2021002" store)
    { has_voted := true, student_id := "2021002", name := "Eve" } store rfl rfl rfl rfl rfl
  ⟨h.1, h.2.2.1⟩

/-- C20, counterexample: after Dan's successful submission, which ends at
`/thank-you`, the state of `App` still holds his ten selections. -/
theorem selections_kept_after_successful_submit :
    (App.reviewHandleSubmitVote Store.backend platform (client dan store)).world.navigations =
        ["/thank-you"] ∧
      (App.reviewHandleSubmitVote Store.backend platform (client dan store)).world.db.votes.length
        = 1 ∧
      (App.reviewHandleSubmitVote Store.backend platform (client dan store)).app.selections =
        tenSelections ∧
      (App.reviewHandleSubmitVote Store.backend platform (client dan store)).app.selections ≠
        [] := by
  decide

/-- Witness of C20 (amended): logout from the sample client. -/
theorem selections_discarded_at_logout_witness :
    (App.handleLogout (client dan store).app).selections = [] ∧
      (App.handleLogout (client dan store).app).sessionStorage = [("theme", "dark")] ∧
      (ThankYou.handleLogout
        (App.reviewHandleSubmitVote Store.backend platform (client dan store))).app.selections
        = [] :=
  ⟨(selections_discarded_at_logout.1 (client dan store).app).1, by decide,
    (selections_discarded_at_logout.2.2 Store _).1⟩

end ElectZone

/-! ## Validation patterns (`helpers.js`) -/

namespace ElectZone

theorem toNat_eq_at (c : Char) : c.toNat = 64 ↔ c = '@' := by
  constructor
  · intro h
    have := Char.ofNat_toNat c
    rw [h] at this
    exact this.symm
  · rintro rfl
    rfl

theorem toNat_eq_dot (c : Char) : c.toNat = 46 ↔ c = '.' := by
  constructor
  · intro h
    have := Char.ofNat_toNat c
    rw [h] at this
    exact this.symm
  · rintro rfl
    rfl

theorem charClass_eq_at (c : Char) : charClass c = .at ↔ c = '@' := by
  rw [← toNat_eq_at]
  unfold charClass
  constructor
  · intro h
    split at h
    · cases h
    · split at h
      · assumption
      · split at h
        · cases h
        · split at h <;> cases h
  · intro h
    have hw : isJSWhitespace 64 = false := by decide
    simp [hw, h]

theorem charClass_eq_dot (c : Char) : charClass c = .dot ↔ c = '.' := by
  rw [← toNat_eq_dot]
  unfold charClass
  constructor
  · intro h
    split at h
    · cases h
    · split at h
      · cases h
      · split at h
        · assumption
        · split at h <;> cases h
  · intro h
    have hw : isJSWhitespace 46 = false := by decide
    simp [hw, h]

theorem isJSWhitespace_digit (n : Nat) (h1 : 48 ≤ n) (h2 : n ≤ 57) :
    isJSWhitespace n = false := by
  interval_cases n <;> rfl

theorem charClass_eq_digit (c : Char) :
    charClass c = .digit ↔ 48 ≤ c.toNat ∧ c.toNat ≤ 57 := by
  unfold charClass
  constructor
  · intro h
    split at h
    · cases h
    · split at h
      · cases h
      · split at h
        · cases h
        · split at h
          · assumption
          · cases h
  · intro h
    have hw := isJSWhitespace_digit c.toNat h.1 h.2
    have h64 : ¬ c.toNat = 64 := by omega
    have h46 : ¬ c.toNat = 46 := by omega
    simp [hw, h64, h46, h]

/-- The characters `[^\s@]` matches are those of class `dot`, `digit` or
`other`. -/
theorem charClass_notSpaceAt (c : Char) :
    (charClass c = .dot ∨ charClass c = .digit ∨ charClass c = .other) ↔
      isJSWhitespace c.toNat = false ∧ c ≠ '@' := by
  rw [Ne, ← toNat_eq_at]
  unfold charClass
  constructor
  · intro h
    split at h
    · simp at h
    · rename_i hw
      split at h
      · simp at h
      · rename_i hat
        exact ⟨by simpa using hw, hat⟩
  · rintro ⟨hw, hat⟩
    simp only [hw, hat, if_false, Bool.false_eq_true]
    split
    · left; rfl
    · split
      · right; left; rfl
      · right; right; rfl

end ElectZone

namespace ElectZone

open RegularExpression in
theorem mem_notSpaceAt (x : List CharClass) :
    x ∈ notSpaceAt.matches' ↔
      ∃ k, x = [k] ∧ (k = .dot ∨ k = .digit ∨ k = .other) := by
  unfold notSpaceAt
  simp only [matches'_add, matches'_char, Language.mem_add]
  constructor
  · rintro ((h | h) | h)
    · exact ⟨.dot, h, Or.inl rfl⟩
    · exact ⟨.digit, h, Or.inr (Or.inl rfl)⟩
    · exact ⟨.other, h, Or.inr (Or.inr rfl)⟩
  · rintro ⟨k, rfl, h | h | h⟩ <;> subst h
    · exact Or.inl (Or.inl rfl)
    · exact Or.inl (Or.inr rfl)
    · exact Or.inr rfl

open RegularExpression in
theorem mem_oneOrMore_notSpaceAt (x : List CharClass) :
    x ∈ (oneOrMore notSpaceAt).matches' ↔
      x ≠ [] ∧ ∀ k ∈ x, k = .dot ∨ k = .digit ∨ k = .other := by
  unfold oneOrMore
  rw [matches'_mul, matches'_star, Language.mem_mul]
  constructor
  · rintro ⟨a, ha, b, hb, rfl⟩
    obtain ⟨k, rfl, hk⟩ := (mem_notSpaceAt a).mp ha
    obtain ⟨L, rfl, hL⟩ := Language.mem_kstar.mp hb
    refine ⟨by simp, ?_⟩
    intro j hj
    simp only [List.singleton_append, List.mem_cons, List.mem_flatten] at hj
    rcases hj with rfl | ⟨y, hy, hjy⟩
    · exact hk
    · obtain ⟨k2, rfl, hk2⟩ := (mem_notSpaceAt y).mp (hL y hy)
      simp only [List.mem_singleton] at hjy
      subst hjy
      exact hk2
  · rintro ⟨hne, hall⟩
    obtain ⟨k, rest, rfl⟩ := List.exists_cons_of_ne_nil hne
    refine ⟨[k], (mem_notSpaceAt _).mpr ⟨k, rfl, hall k (List.mem_cons_self _ _)⟩, rest, ?_,
      rfl⟩
    refine Language.mem_kstar.mpr ⟨rest.map fun j => [j], ?_, ?_⟩
    · induction rest with
      | nil => rfl
      | cons j js ih =>
        simp only [List.map_cons, List.flatten_cons, List.singleton_append, List.cons.injEq,
          true_and]
        exact ih (by simp) fun j2 hj2 => by
          apply hall
          simp only [List.mem_cons] at hj2 ⊢
          rcases hj2 with h | h
          · exact Or.inl h
          · exact Or.inr (Or.inr h)
    · intro y hy
      simp only [List.mem_map] at hy
      obtain ⟨j, hj, rfl⟩ := hy
      exact (mem_notSpaceAt _).mpr ⟨j, rfl, hall j (List.mem_cons_of_mem _ hj)⟩

open RegularExpression in
theorem mem_emailPattern (x : List CharClass) :
    x ∈ emailPattern.matches' ↔
      ∃ l d1 d2, x = l ++ CharClass.at :: (d1 ++ CharClass.dot :: d2) ∧
        l ∈ (oneOrMore notSpaceAt).matches' ∧ d1 ∈ (oneOrMore notSpaceAt).matches' ∧
        d2 ∈ (oneOrMore notSpaceAt).matches' := by
  unfold emailPattern
  simp only [matches'_mul, matches'_char, Language.mem_mul]
  constructor
  · rintro ⟨a, ⟨b, ⟨c, ⟨l, hl, e, he, rfl⟩, d1, hd1, rfl⟩, f, hf, rfl⟩, d2, hd2, rfl⟩
    cases he
    cases hf
    exact ⟨l, d1, d2, by simp, hl, hd1, hd2⟩
  · rintro ⟨l, d1, d2, rfl, hl, hd1, hd2⟩
    exact ⟨_, ⟨_, ⟨_, ⟨l, hl, [.at], rfl, rfl⟩, d1, hd1, rfl⟩, [.dot], rfl, rfl⟩, d2, hd2,
      by simp⟩

open RegularExpression in
theorem mem_studentIdPattern (x : List CharClass) :
    x ∈ studentIdPattern.matches' ↔ x = List.replicate 7 CharClass.digit := by
  unfold studentIdPattern
  rw [matches'_pow, Language.mem_pow, matches'_char]
  constructor
  · rintro ⟨S, rfl, hlen, hS⟩
    have hS2 : S = List.replicate 7 [CharClass.digit] :=
      List.eq_replicate_iff.mpr ⟨hlen, fun y hy => hS y hy⟩
    rw [hS2]
    rfl
  · rintro rfl
    exact ⟨List.replicate 7 [CharClass.digit], rfl, rfl, fun y hy =>
      (List.eq_of_mem_replicate hy)⟩

end ElectZone

namespace ElectZone

/-- C23: `isValidStudentId(s)` is true exactly when `s` consists of exactly
seven characters, each one of the decimal digits `0`-`9`; so `2021001` is
accepted and the empty string, six digits, eight digits and digits within
spaces are rejected. -/
theorem isValidStudentId_iff (s : String) :
    (isValidStudentId s = true ↔
        s.length = 7 ∧ ∀ c ∈ s.data, 48 ≤ c.toNat ∧ c.toNat ≤ 57) ∧
      isValidStudentId "2021001" = true ∧
      isValidStudentId "" = false ∧
      isValidStudentId "202100" = false ∧
      isValidStudentId "20210011" = false ∧
      isValidStudentId " 2021001 " = false := by
  refine ⟨?_, by decide, by decide, by decide, by decide, by decide⟩
  unfold isValidStudentId regexTest
  rw [RegularExpression.rmatch_iff_matches', mem_studentIdPattern, List.eq_replicate_iff]
  simp only [List.length_map, List.mem_map, forall_exists_index, and_imp,
    forall_apply_eq_imp_iff₂, charClass_eq_digit, String.length]

/-- C22: `isValidEmail(s)` is true exactly when `s` holds no whitespace (the
class `\s`), is `local@domain` with `local` non-empty and no other `@`, and
`domain` has a `.` at an index that is neither its first nor its last. -/
theorem isValidEmail_iff (s : String) :
    isValidEmail s = true ↔
      (∀ c ∈ s.data, isJSWhitespace c.toNat = false) ∧
        ∃ loc dom : List Char,
          s.data = loc ++ '@' :: dom ∧ loc ≠ [] ∧ '@' ∉ loc ∧ '@' ∉ dom ∧
            ∃ i, 0 < i ∧ i + 1 < dom.length ∧ dom[i]? = some '.' := by
  have hplus : ∀ cs : List Char,
      cs.map charClass ∈ (oneOrMore notSpaceAt).matches' ↔
        cs ≠ [] ∧ ∀ c ∈ cs, isJSWhitespace c.toNat = false ∧ c ≠ '@' := by
    intro cs
    rw [mem_oneOrMore_notSpaceAt]
    simp only [ne_eq, List.map_eq_nil_iff, List.mem_map, forall_exists_index, and_imp,
      forall_apply_eq_imp_iff₂, charClass_notSpaceAt]
  have hat : isJSWhitespace ('@' : Char).toNat = false := by decide
  have hdot : isJSWhitespace ('.' : Char).toNat = false := by decide
  unfold isValidEmail regexTest
  rw [RegularExpression.rmatch_iff_matches', mem_emailPattern]
  constructor
  · rintro ⟨l, d1, d2, hx, hl, hd1, hd2⟩
    obtain ⟨L, R, hs, hL, hR⟩ := List.map_eq_append_iff.mp hx
    obtain ⟨a, R2, rfl, ha, hR2⟩ := List.map_eq_cons_iff.mp hR
    obtain ⟨D1, R3, rfl, hD1, hR3⟩ := List.map_eq_append_iff.mp hR2
    obtain ⟨b, D2, rfl, hb, hD2⟩ := List.map_eq_cons_iff.mp hR3
    rw [charClass_eq_at] at ha
    rw [charClass_eq_dot] at hb
    subst ha hb
    rw [← hL] at hl
    rw [← hD1] at hd1
    rw [← hD2] at hd2
    obtain ⟨hLne, hLall⟩ := (hplus L).mp hl
    obtain ⟨hD1ne, hD1all⟩ := (hplus D1).mp hd1
    obtain ⟨hD2ne, hD2all⟩ := (hplus D2).mp hd2
    refine ⟨?_, L, D1 ++ '.' :: D2, hs, hLne, fun h => (hLall _ h).2 rfl, ?_, D1.length, ?_, ?_,
      ?_⟩
    · intro c hc
      rw [hs] at hc
      simp only [List.mem_append, List.mem_cons] at hc
      rcases hc with h | rfl | h | rfl | h
      · exact (hLall c h).1
      · exact hat
      · exact (hD1all c h).1
      · exact hdot
      · exact (hD2all c h).1
    · intro h
      simp only [List.mem_append, List.mem_cons] at h
      rcases h with h | h | h
      · exact (hD1all _ h).2 rfl
      · cases h
      · exact (hD2all _ h).2 rfl
    · exact List.length_pos.mpr hD1ne
    · have := List.length_pos.mpr hD2ne
      simp only [List.length_append, List.length_cons]
      omega
    · rw [List.getElem?_append_right (Nat.le_refl _)]
      simp
  · rintro ⟨hws, loc, dom, hs, hloc, hatloc, hatdom, i, hi0, hi1, hidx⟩
    obtain ⟨hlt, hget⟩ := List.getElem?_eq_some_iff.mp hidx
    have hdom : dom = dom.take i ++ '.' :: dom.drop (i + 1) := by
      rw [← hget, ← List.drop_eq_getElem_cons hlt, List.take_append_drop]
    have hall : ∀ c ∈ dom, isJSWhitespace c.toNat = false ∧ c ≠ '@' := by
      intro c hc
      refine ⟨hws c ?_, fun h => hatdom (h ▸ hc)⟩
      rw [hs]
      simp [hc]
    refine ⟨loc.map charClass, (dom.take i).map charClass, (dom.drop (i + 1)).map charClass,
      ?_, ?_, ?_, ?_⟩
    · have e1 : charClass '@' = CharClass.at := by decide
      have e2 : charClass '.' = CharClass.dot := by decide
      rw [hs]
      conv_lhs => rw [hdom]
      simp [e1, e2]
    · refine (hplus loc).mpr ⟨hloc, fun c hc => ⟨hws c ?_, fun h => hatloc (h ▸ hc)⟩⟩
      rw [hs]
      simp [hc]
    · refine (hplus _).mpr ⟨?_, fun c hc => hall c (List.mem_of_mem_take hc)⟩
      intro h
      have := congrArg List.length h
      simp only [List.length_take, List.length_nil] at this
      omega
    · refine (hplus _).mpr ⟨?_, fun c hc => hall c (List.mem_of_mem_drop hc)⟩
      intro h
      have := congrArg List.length h
      simp only [List.length_drop, List.length_nil] at this
      omega

end ElectZone

/-! ## Text helpers and turnout (`helpers.js`, `supabaseAPI.js`) -/

namespace ElectZone

/-- C24 (fails on the code): `truncate('abcdef', 5)` is `'abcde...'`, eight
characters long, although `maxLength` is 5; a text no longer than `maxLength`
comes back unchanged. -/
theorem truncate_exceeds_maxLength :
    truncate "abcdef" 5 = "abcde..." ∧
      (truncate "abcdef" 5).length = 8 ∧
      ¬ (truncate "abcdef" 5).length ≤ 5 ∧
      truncate "abcde" 5 = "abcde" := by
  decide

theorem getTimeRemaining_pos (endTime now : Int) (h : 0 < endTime - now) :
    getTimeRemaining (some endTime) now =
      if (endTime - now) / 86400000 > 0 then
        toString ((endTime - now) / 86400000) ++ " day" ++
          (if (endTime - now) / 86400000 > 1 then "s" else "") ++ " remaining"
      else if (endTime - now) % 86400000 / 3600000 > 0 then
        toString ((endTime - now) % 86400000 / 3600000) ++ " hour" ++
          (if (endTime - now) % 86400000 / 3600000 > 1 then "s" else "") ++ " remaining"
      else
        toString ((endTime - now) % 3600000 / 60000) ++ " minute" ++
          (if (endTime - now) % 3600000 / 60000 > 1 then "s" else "") ++ " remaining" := by
  have hn : ¬ endTime - now ≤ 0 := by omega
  simp only [getTimeRemaining, hn, if_false]
  norm_num

/-- C25 (amended): `getTimeRemaining` returns `'Unknown'` without an end date
and `'Ended'` when `end <= now`; for a remaining time `diff = end - now` of at
least a day it reports `floor(diff / 86400000)` days, of at least an hour and
less than a day `floor(diff / 3600000)` hours, of at least a minute and less
than an hour `floor(diff / 60000)` minutes, each count at least 1 and the unit
pluralised exactly when the count exceeds 1; for a positive remaining time
under a minute it returns `'0 minute remaining'`. -/
theorem getTimeRemaining_cases (endTime now : Int) :
    getTimeRemaining none now = "Unknown" ∧
      (endTime ≤ now → getTimeRemaining (some endTime) now = "Ended") ∧
      (86400000 ≤ endTime - now →
        getTimeRemaining (some endTime) now =
            toString ((endTime - now) / 86400000) ++ " day" ++
              (if (endTime - now) / 86400000 > 1 then "s" else "") ++ " remaining" ∧
          1 ≤ (endTime - now) / 86400000) ∧
      (3600000 ≤ endTime - now → endTime - now < 86400000 →
        getTimeRemaining (some endTime) now =
            toString ((endTime - now) / 3600000) ++ " hour" ++
              (if (endTime - now) / 3600000 > 1 then "s" else "") ++ " remaining" ∧
          1 ≤ (endTime - now) / 3600000) ∧
      (60000 ≤ endTime - now → endTime - now < 3600000 →
        getTimeRemaining (some endTime) now =
            toString ((endTime - now) / 60000) ++ " minute" ++
              (if (endTime - now) / 60000 > 1 then "s" else "") ++ " remaining" ∧
          1 ≤ (endTime - now) / 60000) ∧
      (0 < endTime - now → endTime - now < 60000 →
        getTimeRemaining (some endTime) now = "0 minute remaining") := by
  refine ⟨rfl, ?_, ?_, ?_, ?_, ?_⟩
  · intro h
    have : endTime - now ≤ 0 := by omega
    simp [getTimeRemaining, this]
  · intro h
    have hd : (endTime - now) / 86400000 > 0 := by omega
    rw [getTimeRemaining_pos endTime now (by omega), if_pos hd]
    exact ⟨rfl, by omega⟩
  · intro h1 h2
    have hd : ¬ (endTime - now) / 86400000 > 0 := by omega
    have hm : (endTime - now) % 86400000 = endTime - now := by omega
    have hh : (endTime - now) / 3600000 > 0 := by omega
    rw [getTimeRemaining_pos endTime now (by omega), if_neg hd, hm, if_pos hh]
    exact ⟨rfl, by omega⟩
  · intro h1 h2
    have hd : ¬ (endTime - now) / 86400000 > 0 := by omega
    have hm : (endTime - now) % 86400000 = endTime - now := by omega
    have hh : ¬ (endTime - now) / 3600000 > 0 := by omega
    have hm2 : (endTime - now) % 3600000 = endTime - now := by omega
    rw [getTimeRemaining_pos endTime now (by omega), if_neg hd, hm, if_neg hh, hm2]
    exact ⟨rfl, by omega⟩
  · intro h1 h2
    have hd : ¬ (endTime - now) / 86400000 > 0 := by omega
    have hm : (endTime - now) % 86400000 = endTime - now := by omega
    have hh : ¬ (endTime - now) / 3600000 > 0 := by omega
    have hm2 : (endTime - now) % 3600000 = endTime - now := by omega
    have hz : (endTime - now) / 60000 = 0 := by omega
    rw [getTimeRemaining_pos endTime now (by omega), if_neg hd, hm, if_neg hh, hm2, hz]
    decide

end ElectZone

namespace ElectZone

section Pages

variable {σ : Type}

/-- C21 (amended): when the turnout query returns the flags of the voters
without error, `getTurnout` reports as `total` the number of active voters, as
`voted` the number of active voters whose `has_voted` is true (so never more
than `total`), and as `percentage` the number 0 when there is no active voter
and otherwise the string `((voted / total) * 100).toFixed(2)`. -/
theorem getTurnout_counts (sb : Supabase σ) (pf : Platform) (w : World σ)
    (reply : Response (List VoterFlags)) (data : List VoterFlags) (db1 : σ)
    (hquery : sb.selectVoterFlags w.db = (.ok reply, db1))
    (herror : reply.error = none) (hdata : reply.data = some data) :
    (voterService.getTurnout sb pf w).1 =
        .ok
          { data := some
              { total := data.countP fun v => v.is_active
                voted := data.countP fun v => v.has_voted && v.is_active
                percentage :=
                  if data.countP (fun v => v.is_active) = 0 then .zero
                  else .toFixed2 (data.countP fun v => v.has_voted && v.is_active)
                    (data.countP fun v => v.is_active) }
            error := none } ∧
      data.countP (fun v => v.has_voted && v.is_active) ≤ data.countP (fun v => v.is_active) ∧
      (voterService.getTurnout sb pf w).2.calls = w.calls ++ [.selectVoterFlags] := by
  refine ⟨?_, ?_, ?_⟩
  · simp only [voterService.getTurnout, World.request, hquery, herror, hdata,
      List.countP_eq_length_filter]
    by_cases h : (data.filter fun v => v.is_active).length = 0
    · simp [h]
    · have hpos : 0 < (data.filter fun v => v.is_active).length := Nat.pos_of_ne_zero h
      simp [h, hpos]
  · apply List.countP_mono_left
    intro v _ h
    simp only [Bool.and_eq_true] at h
    exact h.2
  · simp only [voterService.getTurnout, World.request, hquery, herror, hdata]

/-- C26: when the status lookup resolves with no row (`data` is `null`,
whatever its `error`), `handleSubmitVote` does not stop at the gate: with ten
selections and the election loaded it sends the insert of the vote row right
after the lookup (followed at most by the mark) and shows no
already-voted alert. -/
theorem handleSubmitVote_fail_open (sb : Supabase σ) (pf : Platform) (voter : Voter)
    (selections : Selections) (w : World σ) (reply : Response VotingStatus) (el : Election)
    (db1 : σ)
    (hlookup : sb.selectVotingStatus voter.student_id w.db = (.ok reply, db1))
    (hnone : reply.data = none)
    (hcount : selections.length = 10)
    (hel : w.review.election = some el) :
    ((handleSubmitVote sb pf voter selections w).calls =
          w.calls ++
            [.selectVotingStatus voter.student_id,
             .insertVote
              { election_id := el.id, vote_token := pf.randomUUID
                payload := (createVotePayload pf.now selections el.id).toJS
                payload_hash :=
                  createPayloadHash pf.sha256
                    (createVotePayload pf.now selections el.id).toJS }] ∨
        (handleSubmitVote sb pf voter selections w).calls =
          w.calls ++
            [.selectVotingStatus voter.student_id,
             .insertVote
              { election_id := el.id, vote_token := pf.randomUUID
                payload := (createVotePayload pf.now selections el.id).toJS
                payload_hash :=
                  createPayloadHash pf.sha256
                    (createVotePayload pf.now selections el.id).toJS },
             .rpcMarkVoterAsVoted voter.student_id]) ∧
      ((handleSubmitVote sb pf voter selections w).navigations = w.navigations ∨
        (handleSubmitVote sb pf voter selections w).navigations =
          w.navigations ++ ["/thank-you"]) := by
  have hlen : (createVotePayload pf.now selections el.id).selections.length = 10 := by
    simp [createVotePayload, hcount]
  have h1 : (sb.selectVotingStatus voter.student_id w.db).1 = .ok reply := by rw [hlookup]
  have h2 : (sb.selectVotingStatus voter.student_id w.db).2 = db1 := by rw [hlookup]
  rcases hins : (sb.insertVote
      { election_id := el.id, vote_token := pf.randomUUID
        payload := (createVotePayload pf.now selections el.id).toJS
        payload_hash :=
          createPayloadHash pf.sha256 (createVotePayload pf.now selections el.id).toJS }
      db1).1 with e | (_ | e)
  · simp [handleSubmitVote, handleSubmitVoteTry, authService.checkVotingStatus,
      World.request, World.setSubmitting, World.setShowConfirm, World.alert,
      World.navigate, h1, h2, hnone, alreadyVoted, hcount, hel, hlen, generateVoteToken,
      votingService.completeVoting, votingService.submitVote, hins]
  · rcases hmark : (sb.rpcMarkVoterAsVoted voter.student_id
        (sb.insertVote
          { election_id := el.id, vote_token := pf.randomUUID
            payload := (createVotePayload pf.now selections el.id).toJS
            payload_hash :=
              createPayloadHash pf.sha256 (createVotePayload pf.now selections el.id).toJS }
          db1).2).1 with e | (_ | e) <;>
      simp [handleSubmitVote, handleSubmitVoteTry, authService.checkVotingStatus,
        World.request, World.setSubmitting, World.setShowConfirm, World.alert,
        World.navigate, h1, h2, hnone, alreadyVoted, hcount, hel, hlen, generateVoteToken,
        votingService.completeVoting, votingService.submitVote,
        votingService.markVoterAsVoted, hins, hmark]
  · simp [handleSubmitVote, handleSubmitVoteTry, authService.checkVotingStatus,
      World.request, World.setSubmitting, World.setShowConfirm, World.alert,
      World.navigate, h1, h2, hnone, alreadyVoted, hcount, hel, hlen, generateVoteToken,
      votingService.completeVoting, votingService.submitVote, hins]

end Pages

end ElectZone

namespace ElectZone

section Entry

variable {σ : Type}

/-- C29: for a student id other than the admin code, `handleSubmit` of the
`Login` page calls `onLogin` (with the verified row, then navigates to
`/ballot`, leaving no error message) exactly when `verifyVoter` resolves
without error to a row whose `has_voted` is false; in every other case (an
error, no row, a rejected request, or `has_voted` true) it sets an error
message and neither calls `onLogin` nor navigates.  The query is sent once and
`loading` ends false. -/
theorem Login_handleSubmit_gate (sb : Supabase σ) (p : LoginPage σ)
    (hid : p.state.studentId ≠ "ADmin69") :
    ((∃ voter,
          (sb.selectActiveVoter p.state.studentId p.world.db).1 =
            .ok { data := some voter, error := none } ∧
          voter.has_voted = false ∧
          (Login.handleSubmit sb p).callbacks = p.callbacks ++ [.onLogin voter] ∧
          (Login.handleSubmit sb p).world.navigations = p.world.navigations ++ ["/ballot"] ∧
          (Login.handleSubmit sb p).state.error = "") ∨
        ((¬ ∃ voter,
            (sb.selectActiveVoter p.state.studentId p.world.db).1 =
              .ok { data := some voter, error := none } ∧
            voter.has_voted = false) ∧
          (Login.handleSubmit sb p).callbacks = p.callbacks ∧
          (Login.handleSubmit sb p).world.navigations = p.world.navigations ∧
          (Login.handleSubmit sb p).state.error ≠ "")) ∧
      (Login.handleSubmit sb p).state.loading = false ∧
      (Login.handleSubmit sb p).world.calls =
        p.world.calls ++ [.selectActiveVoter p.state.studentId] := by
  rcases hres : (sb.selectActiveVoter p.state.studentId p.world.db).1 with e | reply
  · refine ⟨Or.inr ⟨?_, ?_, ?_, ?_⟩, ?_, ?_⟩
    · rintro ⟨v, hv, _⟩
      cases hv
    all_goals
      simp [Login.handleSubmit, Login.handleSubmitTry, hid, authService.verifyVoter,
        World.request, hres]
  · obtain ⟨data, error⟩ := reply
    cases error with
    | some err =>
      refine ⟨Or.inr ⟨?_, ?_, ?_, ?_⟩, ?_, ?_⟩
      · rintro ⟨v, hv, _⟩
        cases hv
      all_goals
        simp [Login.handleSubmit, Login.handleSubmitTry, hid, authService.verifyVoter,
          World.request, hres]
    | none =>
      cases data with
      | none =>
        refine ⟨Or.inr ⟨?_, ?_, ?_, ?_⟩, ?_, ?_⟩
        · rintro ⟨v, hv, _⟩
          cases hv
        all_goals
          simp [Login.handleSubmit, Login.handleSubmitTry, hid, authService.verifyVoter,
            World.request, hres]
      | some voter =>
        cases hv : voter.has_voted
        · refine ⟨Or.inl ⟨voter, rfl, hv, ?_, ?_, ?_⟩, ?_, ?_⟩
          all_goals
            simp [Login.handleSubmit, Login.handleSubmitTry, hid, authService.verifyVoter,
              World.request, World.navigate, hres, hv]
        · refine ⟨Or.inr ⟨?_, ?_, ?_, ?_⟩, ?_, ?_⟩
          · rintro ⟨v, hv2, hv3⟩
            cases hv2
            rw [hv] at hv3
            cases hv3
          all_goals
            simp [Login.handleSubmit, Login.handleSubmitTry, hid, authService.verifyVoter,
              World.request, hres, hv]

end Entry

theorem getProp_setProp_self {α : Type} (k : String) (v : α) (o : List (String × α)) :
    getProp k (setProp k v o) = some v := by
  induction o with
  | nil => simp [setProp, getProp]
  | cons e rest ih =>
    obtain ⟨k2, v2⟩ := e
    by_cases h : k2 = k
    · simp [setProp, getProp, h]
    · simp [setProp, getProp, h, ih]

theorem getProp_setProp_other {α : Type} (k other : String) (v : α) (o : List (String × α))
    (h : other ≠ k) : getProp other (setProp k v o) = getProp other o := by
  induction o with
  | nil => simp [setProp, getProp, h.symm]
  | cons e rest ih =>
    obtain ⟨k2, v2⟩ := e
    by_cases h2 : k2 = k
    · have h3 : ¬ k2 = other := fun h4 => h (h4.symm.trans h2)
      have h5 : ¬ k = other := fun h4 => h h4.symm
      simp [setProp, getProp, h2, h3, h5]
    · by_cases h3 : k2 = other
      · subst h3
        simp [setProp, getProp, h2]
      · simp [setProp, getProp, h2, h3, ih]

theorem keys_setProp {α : Type} (k : String) (v : α) (o : List (String × α)) :
    (setProp k v o).map Prod.fst =
      if k ∈ o.map Prod.fst then o.map Prod.fst else o.map Prod.fst ++ [k] := by
  induction o with
  | nil => simp [setProp]
  | cons e rest ih =>
    obtain ⟨k2, v2⟩ := e
    by_cases h2 : k2 = k
    · simp [setProp, h2]
    · have h3 : ¬ k = k2 := fun h => h2 h.symm
      simp only [setProp, h2, if_false, List.map_cons, ih, List.mem_cons, h3, false_or]
      split <;> simp

/-- C30: `handleSelectCandidate(position, candidateId)` makes
`selections[position]` the chosen candidate and leaves the entry of every other
position as it was; the positions stay pairwise distinct, the number of entries
stays or grows by one, a second choice for the position replaces the first, and
nothing else of the state of `App` changes. -/
theorem handleSelectCandidate_entry (position candidateId : String) (prev : Selections)
    (hkeys : (prev.map Prod.fst).Nodup) :
    getProp position (handleSelectCandidate position candidateId prev) = some candidateId ∧
      (∀ other, other ≠ position →
        getProp other (handleSelectCandidate position candidateId prev) =
          getProp other prev) ∧
      ((handleSelectCandidate position candidateId prev).map Prod.fst).Nodup ∧
      prev.length ≤ (handleSelectCandidate position candidateId prev).length ∧
      (handleSelectCandidate position candidateId prev).length ≤ prev.length + 1 ∧
      (∀ second,
        handleSelectCandidate position second
            (handleSelectCandidate position candidateId prev) =
          handleSelectCandidate position second prev) ∧
      ∀ app : AppState,
        (App.ballotHandleSelectCandidate position candidateId app).selections =
            handleSelectCandidate position candidateId app.selections ∧
          (App.ballotHandleSelectCandidate position candidateId app).voter = app.voter ∧
          (App.ballotHandleSelectCandidate position candidateId app).admin = app.admin ∧
          (App.ballotHandleSelectCandidate position candidateId app).sessionStorage =
            app.sessionStorage := by
  have hlen : (handleSelectCandidate position candidateId prev).length =
      if position ∈ prev.map Prod.fst then prev.length else prev.length + 1 := by
    have := congrArg List.length (keys_setProp position candidateId prev)
    simp only [List.length_map] at this
    rw [handleSelectCandidate, this]
    split <;> simp
  refine ⟨getProp_setProp_self _ _ _, fun other h => getProp_setProp_other _ _ _ _ h, ?_, ?_,
    ?_, ?_, fun app => ⟨rfl, rfl, rfl, rfl⟩⟩
  · rw [handleSelectCandidate, keys_setProp]
    split
    · exact hkeys
    · rename_i hnot
      exact List.Nodup.append hkeys (List.nodup_singleton _) (by simpa using hnot)
  · rw [hlen]
    split <;> omega
  · rw [hlen]
    split <;> omega
  · intro second
    unfold handleSelectCandidate
    clear hlen hkeys
    induction prev with
    | nil => simp [setProp]
    | cons e rest ih =>
      obtain ⟨k2, v2⟩ := e
      by_cases h2 : k2 = position
      · simp [setProp, h2]
      · simp [setProp, h2, ih]

end ElectZone

/-! ## The ballot (`Ballot.jsx`, `getCandidatesGroupedByParty`) -/

namespace ElectZone

theorem mem_newSet (x : String) (l : List String) : x ∈ newSet l ↔ x ∈ l := by
  induction l with
  | nil => simp [newSet]
  | cons y ys ih =>
    by_cases h : x = y
    · simp [newSet, h]
    · simp [newSet, h, ih]

/-- The read `selections[pos]` is truthy, for a position that is not a name of
`Object.prototype`, exactly when the Selection Set holds a non-empty candidate
id for it. -/
theorem selectionTruthy_ordinary (selections : Selections) (pos : String)
    (hpos : pos ∉ objectPrototypeKeys) :
    selectionTruthy selections pos = true ↔
      ∃ candidateId, getProp pos selections = some candidateId ∧ candidateId ≠ "" := by
  unfold selectionTruthy readProp
  cases h : getProp pos selections with
  | none => simp [hpos]
  | some v => simp

/-- For a roster none of whose positions is a name of `Object.prototype`,
`handleProceedToReview` sets `navigating` and the timer for `/review` exactly
when every distinct position of the loaded candidates has a non-empty
candidate id in the Selection Set, and otherwise only shows its alert. -/
theorem handleProceedToReview_ordinary (selections : Selections) (b : BallotPage)
    (hpos : ∀ c ∈ allCandidates b.state.candidatesByParty,
      c.position ∉ objectPrototypeKeys) :
    ((∀ c ∈ allCandidates b.state.candidatesByParty,
          ∃ candidateId, getProp c.position selections = some candidateId ∧
            candidateId ≠ "") →
        handleProceedToReview selections b =
          { b with
            state := { b.state with navigating := true }
            timers := b.timers ++ [(800, "/review")] }) ∧
      ((¬ ∀ c ∈ allCandidates b.state.candidatesByParty,
          ∃ candidateId, getProp c.position selections = some candidateId ∧
            candidateId ≠ "") →
        handleProceedToReview selections b =
          { b with
            alerts := b.alerts ++
              ["Please select a candidate for each position before proceeding"] }) := by
  have hall : (newSet ((allCandidates b.state.candidatesByParty).map fun c => c.position)).all
        (fun pos => selectionTruthy selections pos) = true ↔
      ∀ c ∈ allCandidates b.state.candidatesByParty,
        ∃ candidateId, getProp c.position selections = some candidateId ∧
          candidateId ≠ "" := by
    simp only [List.all_eq_true, mem_newSet, List.mem_map, forall_exists_index, and_imp,
      forall_apply_eq_imp_iff₂]
    constructor
    · intro h c hc
      exact (selectionTruthy_ordinary selections _ (hpos c hc)).mp (h c hc)
    · intro h c hc
      exact (selectionTruthy_ordinary selections _ (hpos c hc)).mpr (h c hc)
  constructor
  · intro h
    simp [handleProceedToReview, hall.mpr h]
  · intro h
    have : ¬ (newSet ((allCandidates b.state.candidatesByParty).map fun c => c.position)).all
        (fun pos => selectionTruthy selections pos) = true := fun h2 => h (hall.mp h2)
    simp only [Bool.not_eq_true] at this
    simp [handleProceedToReview, this]

/-- C27 (fails on the code): with a loaded candidate whose position is
labelled `constructor` and an empty Selection Set, `handleProceedToReview`
shows no alert, sets `navigating` and starts the timer that navigates to
`/review`: `selections['constructor']` is the function `Object` every plain
object inherits, which is truthy.  With the position labelled `President` the
same call alerts and does not proceed. -/
theorem handleProceedToReview_inherited_name :
    getProp "constructor" ([] : Selections) = none ∧
      (handleProceedToReview []
        (Sample.ballotPage [("Blue", [Sample.oddPositionCandidate])])).state.navigating =
        true ∧
      (handleProceedToReview []
        (Sample.ballotPage [("Blue", [Sample.oddPositionCandidate])])).timers =
        [(800, "/review")] ∧
      (handleProceedToReview []
        (Sample.ballotPage [("Blue", [Sample.oddPositionCandidate])])).alerts = [] ∧
      (handleProceedToReview [] (Sample.ballotPage Sample.groupedRoster)).state.navigating =
        false ∧
      (handleProceedToReview [] (Sample.ballotPage Sample.groupedRoster)).alerts =
        ["Please select a candidate for each position before proceeding"] := by
  decide

/-- C28 (fails on the code): for a candidate list holding a candidate of a
party named `constructor`, `getCandidatesGroupedByParty` rejects with the
`TypeError` of `acc[party].push` instead of returning groups: `acc[party]` is
the inherited function `Object`, so no array is created for the party.  For the
sample roster it returns the groups `Blue` and `Red`. -/
theorem getCandidatesGroupedByParty_inherited_name :
    groupByParty Sample.platform [Sample.oddPartyCandidate] [] =
        .error { message := some "is not a function" } ∧
      (candidateService.getCandidatesGroupedByParty Store.backend Sample.platform "e1"
          (Sample.mounted
            { Sample.store with candidates := Sample.roster ++ [Sample.oddPartyCandidate] })).1 =
        .error { message := some "is not a function" } ∧
      groupByParty Sample.platform Sample.roster [] = .ok Sample.groupedRoster :=
  ⟨rfl, rfl, rfl⟩

end ElectZone

namespace ElectZone

theorem getProp_eq_none_iff {α : Type} (k : String) (o : List (String × α)) :
    getProp k o = none ↔ k ∉ o.map Prod.fst := by
  induction o with
  | nil => simp [getProp]
  | cons e rest ih =>
    obtain ⟨k2, v2⟩ := e
    by_cases h : k2 = k
    · simp [getProp, h]
    · have h2 : ¬ k = k2 := fun h3 => h h3.symm
      simp [getProp, h, h2, ih]

theorem allCandidates_setProp_some (k : String) (g : List Candidate) (c : Candidate)
    (acc : List (String × List Candidate)) (h : getProp k acc = some g) :
    (allCandidates (setProp k (g ++ [c]) acc)).Perm (c :: allCandidates acc) := by
  induction acc with
  | nil => simp [getProp] at h
  | cons e rest ih =>
    obtain ⟨k2, g2⟩ := e
    by_cases h2 : k2 = k
    · simp only [getProp, h2, if_true, Option.some.injEq] at h
      subst h
      simp only [setProp, h2, if_true, allCandidates, List.map_cons, List.flatten_cons,
        List.append_assoc, List.singleton_append]
      exact List.perm_middle
    · simp only [getProp, h2, if_false] at h
      simp only [setProp, h2, if_false, allCandidates, List.map_cons, List.flatten_cons]
      exact ((ih h).append_left g2).trans List.perm_middle

theorem allCandidates_setProp_none (k : String) (c : Candidate)
    (acc : List (String × List Candidate)) (h : getProp k acc = none) :
    allCandidates (setProp k [c] acc) = allCandidates acc ++ [c] := by
  induction acc with
  | nil => simp [setProp, allCandidates]
  | cons e rest ih =>
    obtain ⟨k2, g2⟩ := e
    by_cases h2 : k2 = k
    · simp [getProp, h2] at h
    · simp only [getProp, h2, if_false] at h
      simp only [allCandidates] at ih
      simp [setProp, h2, allCandidates, ih h]

/-- The accumulator of the grouping after the candidates `pre`: distinct keys,
under each party that occurs the candidates of that party in their order, and
all candidates once. -/
theorem groupStep_ordinary (pf : Platform) (pre : List Candidate) (c : Candidate)
    (acc : List (String × List Candidate))
    (hc : partyOrIndependent c ∉ objectPrototypeKeys)
    (hkeys : (acc.map Prod.fst).Nodup)
    (hget : ∀ p, getProp p acc =
      if p ∈ pre.map partyOrIndependent then
        some (pre.filter fun x => partyOrIndependent x = p) else none)
    (hperm : (allCandidates acc).Perm pre) :
    ∃ acc2, groupStep pf acc c = .ok acc2 ∧ (acc2.map Prod.fst).Nodup ∧
      (∀ p, getProp p acc2 =
        if p ∈ (pre ++ [c]).map partyOrIndependent then
          some ((pre ++ [c]).filter fun x => partyOrIndependent x = p) else none) ∧
      (allCandidates acc2).Perm (pre ++ [c]) := by
  have hother : ∀ p, p ≠ partyOrIndependent c →
      (if p ∈ (pre ++ [c]).map partyOrIndependent then
          some ((pre ++ [c]).filter fun x => partyOrIndependent x = p) else none) =
        if p ∈ pre.map partyOrIndependent then
          some (pre.filter fun x => partyOrIndependent x = p) else none := by
    intro p hp
    have hp2 : ¬ partyOrIndependent c = p := fun h => hp h.symm
    simp [List.filter_append, hp, hp2]
  by_cases hin : partyOrIndependent c ∈ pre.map partyOrIndependent
  · have hg := hget (partyOrIndependent c)
    rw [if_pos hin] at hg
    refine ⟨setProp (partyOrIndependent c)
      ((pre.filter fun x => partyOrIndependent x = partyOrIndependent c) ++ [c]) acc, ?_, ?_,
      ?_, ?_⟩
    · simp [groupStep, readProp, hg]
    · rw [keys_setProp]
      have : partyOrIndependent c ∈ acc.map Prod.fst := by
        by_contra hn
        rw [(getProp_eq_none_iff _ _).mpr hn] at hg
        cases hg
      rw [if_pos this]
      exact hkeys
    · intro p
      by_cases hp : p = partyOrIndependent c
      · subst hp
        rw [getProp_setProp_self]
        simp [List.filter_append]
      · rw [getProp_setProp_other _ _ _ _ hp, hget p, hother p hp]
    · exact (allCandidates_setProp_some _ _ c acc hg).trans
        ((hperm.cons c).trans (List.perm_append_singleton c pre).symm)
  · have hg := hget (partyOrIndependent c)
    rw [if_neg hin] at hg
    refine ⟨setProp (partyOrIndependent c) [c] acc, ?_, ?_, ?_, ?_⟩
    · simp [groupStep, readProp, hg, hc]
    · rw [keys_setProp]
      have hn := (getProp_eq_none_iff _ _).mp hg
      rw [if_neg hn]
      exact List.Nodup.append hkeys (List.nodup_singleton _) (by simpa using hn)
    · intro p
      by_cases hp : p = partyOrIndependent c
      · subst hp
        rw [getProp_setProp_self]
        have hempty : (pre.filter fun x => partyOrIndependent x = partyOrIndependent c) =
            [] := by
          rw [List.filter_eq_nil_iff]
          intro x hx hxe
          simp only [decide_eq_true_eq] at hxe
          exact hin (List.mem_map.mpr ⟨x, hx, hxe⟩)
        simp [List.filter_append, hempty]
      · rw [getProp_setProp_other _ _ _ _ hp, hget p, hother p hp]
    · rw [allCandidates_setProp_none _ c acc hg]
      exact hperm.append_right [c]

theorem groupByParty_from (pf : Platform) (rest : List Candidate) :
    ∀ (pre : List Candidate) (acc : List (String × List Candidate)),
      (∀ c ∈ rest, partyOrIndependent c ∉ objectPrototypeKeys) →
      (acc.map Prod.fst).Nodup →
      (∀ p, getProp p acc =
        if p ∈ pre.map partyOrIndependent then
          some (pre.filter fun x => partyOrIndependent x = p) else none) →
      (allCandidates acc).Perm pre →
      ∃ out, groupByParty pf rest acc = .ok out ∧ (out.map Prod.fst).Nodup ∧
        (∀ p, getProp p out =
          if p ∈ (pre ++ rest).map partyOrIndependent then
            some ((pre ++ rest).filter fun x => partyOrIndependent x = p) else none) ∧
        (allCandidates out).Perm (pre ++ rest) := by
  induction rest with
  | nil =>
    intro pre acc _ hkeys hget hperm
    exact ⟨acc, rfl, hkeys, by simpa using hget, by simpa using hperm⟩
  | cons c rest ih =>
    intro pre acc hall hkeys hget hperm
    obtain ⟨acc2, hstep, hk2, hg2, hp2⟩ := groupStep_ordinary pf pre c acc
      (hall c (List.mem_cons_self _ _)) hkeys hget hperm
    obtain ⟨out, hout, hk, hg, hp⟩ := ih (pre ++ [c]) acc2
      (fun x hx => hall x (List.mem_cons_of_mem _ hx)) hk2 hg2 hp2
    refine ⟨out, ?_, hk, ?_, ?_⟩
    · simp only [groupByParty, hstep]
      exact hout
    · simpa using hg
    · simpa using hp

/-- For candidates none of whose party names (with `Independent` for an empty
one) is a name of `Object.prototype`, the grouping returns groups with
distinct keys, under each party that occurs exactly the candidates of that
party in their input order, the groups together a permutation of the input,
and the ballot sees the distinct positions of the roster. -/
theorem groupByParty_ordinary (pf : Platform) (candidates : List Candidate)
    (hall : ∀ c ∈ candidates, partyOrIndependent c ∉ objectPrototypeKeys) :
    ∃ grouped, groupByParty pf candidates [] = .ok grouped ∧
      (grouped.map Prod.fst).Nodup ∧
      (∀ p, getProp p grouped =
        if p ∈ candidates.map partyOrIndependent then
          some (candidates.filter fun x => partyOrIndependent x = p) else none) ∧
      (allCandidates grouped).Perm candidates ∧
      ∀ pos, pos ∈ newSet ((allCandidates grouped).map fun c => c.position) ↔
        pos ∈ distinctPositions candidates := by
  obtain ⟨out, hout, hk, hg, hp⟩ := groupByParty_from pf candidates [] [] hall
    (by simp) (by simp [getProp]) (by simp [allCandidates])
  refine ⟨out, hout, hk, by simpa using hg, by simpa using hp, ?_⟩
  intro pos
  have hp2 : (allCandidates out).Perm candidates := by simpa using hp
  simp only [distinctPositions, mem_newSet, List.mem_map]
  constructor
  · rintro ⟨c, hc, rfl⟩
    exact ⟨c, hp2.mem_iff.mp hc, rfl⟩
  · rintro ⟨c, hc, rfl⟩
    exact ⟨c, hp2.mem_iff.mpr hc, rfl⟩

end ElectZone

/-! ## Runs of the pages and helpers on the sample data -/

namespace ElectZone

open Sample

/-- C21, counterexample: the store holds two voters whose `has_voted` is true,
one of them inactive; `getTurnout` reports `voted = 1`. -/
theorem turnout_skips_inactive_voted :
    (storeWithInactive.voters.filter fun v => v.has_voted).length = 2 ∧
      (voterService.getTurnout Store.backend platform (mounted storeWithInactive)).1 =
        .ok
          { data := some { total := 3, voted := 1, percentage := .toFixed2 1 3 }
            error := none } :=
  ⟨by decide, rfl⟩

/-- Witness of C21 (amended): the turnout of the store with an inactive voter
is computed from the flags the query returned, in one request. -/
theorem getTurnout_counts_witness :
    (voterService.getTurnout Store.backend platform (mounted storeWithInactive)).1 =
        .ok
          { data := some { total := 3, voted := 1, percentage := .toFixed2 1 3 }
            error := none } ∧
      (voterService.getTurnout Store.backend platform (mounted storeWithInactive)).2.calls =
        [.selectVoterFlags] :=
  have h := getTurnout_counts Store.backend platform (mounted storeWithInactive)
    (Store.listVoterFlags storeWithInactive)
    (storeWithInactive.voters.map fun v : VoterRow =>
      ({ has_voted := v.has_voted, is_active := v.is_active } : VoterFlags))
    storeWithInactive rfl rfl rfl
  ⟨h.1.trans rfl, h.2.2⟩

/-- C25, counterexample: thirty seconds before the end the reported count is
zero. -/
theorem getTimeRemaining_under_a_minute :
    getTimeRemaining (some 30000) 0 = "0 minute remaining" ∧
      getTimeRemaining (some 1730000059999) 1730000000000 = "0 minute remaining" := by
  decide

/-- Witness of C25 (amended): two hours and one millisecond, and one minute. -/
theorem getTimeRemaining_cases_witness :
    getTimeRemaining (some 7200001) 0 = "2 hours remaining" ∧
      getTimeRemaining (some 60000) 0 = "1 minute remaining" ∧
      getTimeRemaining (some 0) 0 = "Ended" :=
  have h := getTimeRemaining_cases 7200001 0
  have h2 := getTimeRemaining_cases 60000 0
  have h3 := getTimeRemaining_cases 0 0
  ⟨(h.2.2.2.1 (by decide) (by decide)).1.trans (by decide),
    (h2.2.2.2.2.1 (by decide) (by decide)).1.trans (by decide), h3.2.1 (by decide)⟩

/-- Witness of C26: Gus, whose student id the store does not hold, submits
ten selections; the lookup finds no row, the vote is inserted and the run ends
at `/thank-you`. -/
theorem handleSubmitVote_fail_open_witness :
    (Store.getVoterStatus "2029999" store).data = none ∧
      (handleSubmitVote Store.backend platform gus tenSelections
        (loaded store tenSelections)).db.votes.length = 1 ∧
      ((handleSubmitVote Store.backend platform gus tenSelections
          (loaded store tenSelections)).navigations =
          (loaded store tenSelections).navigations ∨
        (handleSubmitVote Store.backend platform gus tenSelections
          (loaded store tenSelections)).navigations =
          (loaded store tenSelections).navigations ++ ["/thank-you"]) :=
  have h := handleSubmitVote_fail_open Store.backend platform gus tenSelections
    (loaded store tenSelections) (Store.getVoterStatus "2029999" store) election store
    rfl rfl rfl rfl
  ⟨rfl, rfl, h.2⟩

/-- Witness of C29: Dan, who has not voted, is logged in; Eve, who has, and an
unknown student id are refused. -/
theorem Login_handleSubmit_gate_witness :
    (Login.handleSubmit Store.backend (loginPage "2021001" store)).callbacks =
        [.onLogin { student_id := "2021001", name := "Dan", has_voted := false }] ∧
      (Login.handleSubmit Store.backend (loginPage "2021002" store)).callbacks = [] ∧
      (Login.handleSubmit Store.backend (loginPage "2021002" store)).state.error =
        "You have already cast your vote. Thank you for participating!" ∧
      (Login.handleSubmit Store.backend (loginPage "2029999" store)).callbacks = [] ∧
      (Login.handleSubmit Store.backend (loginPage "2021001" store)).state.loading = false :=
  have h := Login_handleSubmit_gate Store.backend (loginPage "2021001" store) (by decide)
  ⟨by decide, by decide, by decide, by decide, h.2.1⟩

/-- Witness of C30: the President entry of the ten selections is changed. -/
theorem handleSelectCandidate_entry_witness :
    getProp "President" (handleSelectCandidate "President" "c3" tenSelections) = some "c3" ∧
      getProp "Muse" (handleSelectCandidate "President" "c3" tenSelections) = some "c10" ∧
      (handleSelectCandidate "President" "c3" tenSelections).length = 10 :=
  have h := handleSelectCandidate_entry "President" "c3" tenSelections (by decide)
  ⟨h.1, (h.2.1 "Muse" (by decide)).trans (by decide), by decide⟩

end ElectZone

/-! ## Reports of a failed status lookup (`Review.jsx`) -/

namespace ElectZone

open Sample

/-- C17, counterexample: Eve, whose row has `has_voted = true`, submits ten
selections while the status lookup fails with
`{ data: null, error: { message: 'timeout' } }`: the failed lookup is reported
by no alert, the vote is inserted, the mark is sent and the run ends at
`/thank-you`. -/
theorem failed_lookup_not_reported :
    (lookupFailing.selectVotingStatus "2021002" store).1 =
        .ok { data := none, error := some { message := some "timeout" } } ∧
      Store.hasVoted store "2021002" = true ∧
      (handleSubmitVote lookupFailing platform eve tenSelections
        (loaded store tenSelections)).calls =
        (loaded store tenSelections).calls ++
          [.selectVotingStatus "2021002", .insertVote row, .rpcMarkVoterAsVoted "2021002"] ∧
      (handleSubmitVote lookupFailing platform eve tenSelections
        (loaded store tenSelections)).alerts = [] ∧
      (handleSubmitVote lookupFailing platform eve tenSelections
        (loaded store tenSelections)).db.votes = [row] ∧
      (handleSubmitVote lookupFailing platform eve tenSelections
        (loaded store tenSelections)).navigations = ["/thank-you"] :=
  ⟨rfl, rfl, rfl, rfl, rfl, rfl⟩

/-- Witness of C17 (amended): on the sample store a rejected lookup is reported
by one alert and ends Dan's run after the lookup; a lookup that resolves with
an error and no row is followed by the insert and the mark without any
alert. -/
theorem handleSubmitVote_call_sequence_witness :
    (handleSubmitVote lookupRejecting platform dan tenSelections
        (loaded store tenSelections)).calls =
        (loaded store tenSelections).calls ++ [.selectVotingStatus "2021001"] ∧
      (handleSubmitVote lookupRejecting platform dan tenSelections
        (loaded store tenSelections)).alerts = ["Error submitting vote: Failed to fetch"] ∧
      (handleSubmitVote lookupFailing platform dan tenSelections
        (loaded store tenSelections)).calls =
        (loaded store tenSelections).calls ++
          [.selectVotingStatus "2021001", .insertVote row, .rpcMarkVoterAsVoted "2021001"] ∧
      (handleSubmitVote lookupFailing platform dan tenSelections
        (loaded store tenSelections)).alerts = [] ∧
      (handleSubmitVote lookupFailing platform dan tenSelections
        (loaded store tenSelections)).navigations = ["/thank-you"] :=
  have h1 := (handleSubmitVote_call_sequence lookupRejecting platform dan tenSelections
    (loaded store tenSelections)).2.1 { message := some "Failed to fetch" } rfl
  have h2 := (handleSubmitVote_call_sequence lookupFailing platform dan tenSelections
    (loaded store tenSelections)).2.2
    { data := none, error := some { message := some "timeout" } } election
    rfl rfl rfl rfl rfl rfl
  ⟨h1.1, h1.2.1.trans rfl, h2.1, h2.2.1.trans rfl, h2.2.2.trans rfl⟩

end ElectZone
